import Mathlib

/-!
# Verification of the Terathon Math Library `Flector3D` specification

This file gives a shallow embedding of `TSFlector3D.h` from the Terathon Math
Library and proves or refutes the specified properties of the flector type.

Modelling conventions:

* `float` arithmetic is modelled by real arithmetic (`ℝ`); the companion value
  types (`Vector3D`, `Vector4D`, `Point3D`, `Plane3D`, `Bivector3D`, `Line3D`,
  `Motor3D`, `Transform4D`) are external collaborators of the core and are
  modelled as plain records of reals with the component layout the header uses.
* Functions whose bodies appear in `TSFlector3D.h` (scalar operators, `Unitize`,
  `MakeTransflection`, `Reverse`/`Antireverse`, norms, equality) are translated
  directly from the source.
* Functions only declared in `TSFlector3D.h` (the geometric antiproducts, the
  six `Transform` overloads, and the matrix bridge) are modelled from the spec;
  each such definition carries a doc comment beginning `Modelled from the
  spec:`.  The spec defines these as fixed bilinear maps given by the
  multiplication table of the 3D projective geometric algebra (basis
  `e1, e2, e3, e4` with `e4` squaring to zero, flector components on
  `e1, e2, e3, e4` and `e234, e314, e124, e321`, antiproduct obtained from the
  geometric product by complement duality); the closed coefficient formulas
  below are the expansion of those sandwich/antiproduct maps.
* The exact float comparison semantics of `operator ==` / `operator !=`
  (including NaN behaviour) are modelled separately at the end of the file with
  an explicit not-a-number flag, since `ℝ` has no NaN.
-/

noncomputable section

namespace Terathon

/-- External collaborator: 3D vector with components x, y, z. -/
structure Vector3D where
  x : ℝ
  y : ℝ
  z : ℝ

/-- External collaborator: 3D bivector with components x, y, z. -/
structure Bivector3D where
  x : ℝ
  y : ℝ
  z : ℝ

/-- External collaborator: homogeneous 4D vector with components x, y, z, w. -/
structure Vector4D where
  x : ℝ
  y : ℝ
  z : ℝ
  w : ℝ

/-- External collaborator: 3D point; its homogeneous w coordinate is implicitly 1. -/
structure Point3D where
  x : ℝ
  y : ℝ
  z : ℝ

/-- External collaborator: plane with normal (x, y, z) and offset w. -/
structure Plane3D where
  x : ℝ
  y : ℝ
  z : ℝ
  w : ℝ

/-- External collaborator: 3D line with direction v and moment m. -/
structure Line3D where
  v : Vector3D
  m : Bivector3D

/-- External collaborator: motor (even-grade PGA element, a proper isometry),
with v holding the `e41, e42, e43` and antiscalar components and m holding the
`e23, e31, e12` and scalar components. -/
structure Motor3D where
  v : Vector4D
  m : Vector4D

/-- The flector: vector part p (components of `e1, e2, e3, e4`) and trivector
part g (components of `e234, e314, e124, e321`), per `class Flector3D`. -/
structure Flector3D where
  p : Vector4D
  g : Plane3D

/-- External collaborator: 4x4 transform matrix whose fourth row is implicitly
(0, 0, 0, 1), stored here as the explicit upper 3x4 block. -/
structure Transform4D where
  m00 : ℝ
  m01 : ℝ
  m02 : ℝ
  m03 : ℝ
  m10 : ℝ
  m11 : ℝ
  m12 : ℝ
  m13 : ℝ
  m20 : ℝ
  m21 : ℝ
  m22 : ℝ
  m23 : ℝ

/-- External collaborator `InverseSqrt`: the reciprocal square root. -/
def InverseSqrt (x : ℝ) : ℝ := (Real.sqrt x)⁻¹

/-- Source `operator *(const Flector3D& F, float n)` (and the component-wise
effect of `operator *=`): multiplies all 8 components by n. -/
def flectorMulScalar (F : Flector3D) (n : ℝ) : Flector3D :=
  ⟨⟨F.p.x * n, F.p.y * n, F.p.z * n, F.p.w * n⟩,
   ⟨F.g.x * n, F.g.y * n, F.g.z * n, F.g.w * n⟩⟩

/-- Source `Flector3D& operator /=(float n)`: sets n to 1/n and multiplies
the vector and trivector parts by it. -/
def flectorDivAssign (F : Flector3D) (n : ℝ) : Flector3D :=
  let n2 := 1 / n
  ⟨⟨F.p.x * n2, F.p.y * n2, F.p.z * n2, F.p.w * n2⟩,
   ⟨F.g.x * n2, F.g.y * n2, F.g.z * n2, F.g.w * n2⟩⟩

/-- Source `operator /(const Flector3D& F, float n)`: sets n to 1/n and
multiplies all 8 components by it. -/
def flectorDiv (F : Flector3D) (n : ℝ) : Flector3D :=
  let n2 := 1 / n
  ⟨⟨F.p.x * n2, F.p.y * n2, F.p.z * n2, F.p.w * n2⟩,
   ⟨F.g.x * n2, F.g.y * n2, F.g.z * n2, F.g.w * n2⟩⟩

/-- Source `operator -(const Flector3D& F)`: negates all 8 components. -/
def flectorNeg (F : Flector3D) : Flector3D :=
  ⟨⟨-F.p.x, -F.p.y, -F.p.z, -F.p.w⟩, ⟨-F.g.x, -F.g.y, -F.g.z, -F.g.w⟩⟩

/-- Source member `Flector3D& Unitize(void)`: multiplies the flector by the
inverse square root of `p.w^2 + g.x^2 + g.y^2 + g.z^2` via `operator *=`. -/
def Flector3D.Unitize (F : Flector3D) : Flector3D :=
  flectorMulScalar F (InverseSqrt (F.p.w * F.p.w + F.g.x * F.g.x + F.g.y * F.g.y + F.g.z * F.g.z))

/-- Source free function `Unitize(const Flector3D& F)`: returns
`F * InverseSqrt(F.p.w * F.p.w + F.g.x * F.g.x + F.g.y * F.g.y + F.g.z * F.g.z)`. -/
def Unitize (F : Flector3D) : Flector3D :=
  flectorMulScalar F (InverseSqrt (F.p.w * F.p.w + F.g.x * F.g.x + F.g.y * F.g.y + F.g.z * F.g.z))

/-- Source `Reverse(const Flector3D& F)`: negates the four vector-part
components and keeps the trivector part. -/
def Reverse (F : Flector3D) : Flector3D :=
  ⟨⟨-F.p.x, -F.p.y, -F.p.z, -F.p.w⟩, ⟨F.g.x, F.g.y, F.g.z, F.g.w⟩⟩

/-- Source `Antireverse(const Flector3D& F)` (also `operator ~`): negates the
four vector-part components and keeps the trivector part. -/
def Antireverse (F : Flector3D) : Flector3D :=
  ⟨⟨-F.p.x, -F.p.y, -F.p.z, -F.p.w⟩, ⟨F.g.x, F.g.y, F.g.z, F.g.w⟩⟩

/-- Source `BulkNorm(const Flector3D& F)`:
`Sqrt(F.p.x * F.p.x + F.p.y * F.p.y + F.p.z * F.p.z + F.g.w * F.g.w)`. -/
def BulkNorm (F : Flector3D) : ℝ :=
  Real.sqrt (F.p.x * F.p.x + F.p.y * F.p.y + F.p.z * F.p.z + F.g.w * F.g.w)

/-- Source `WeightNorm(const Flector3D& F)`:
`Sqrt(F.p.w * F.p.w + F.g.x * F.g.x + F.g.y * F.g.y + F.g.z * F.g.z)`. -/
def WeightNorm (F : Flector3D) : ℝ :=
  Real.sqrt (F.p.w * F.p.w + F.g.x * F.g.x + F.g.y * F.g.y + F.g.z * F.g.z)

/-- Source static member `MakeTransflection(const Vector3D& offset, const Plane3D& plane)`,
translated verbatim from the header. -/
def Flector3D.MakeTransflection (offset : Vector3D) (plane : Plane3D) : Flector3D :=
  ⟨⟨(offset.y * plane.z - offset.z * plane.y) * 0.5,
    (offset.z * plane.x - offset.x * plane.z) * 0.5,
    (offset.x * plane.y - offset.y * plane.x) * 0.5,
    0⟩,
   ⟨plane.x, plane.y, plane.z,
    plane.w - (offset.x * plane.x + offset.y * plane.y + offset.z * plane.z) * 0.5⟩⟩

/-- Modelled from the spec: the geometric antiproduct of two flectors
(`Motor3D operator *(const Flector3D& a, const Flector3D& b)`, declared in
TSFlector3D.h but implemented outside src/).  The spec (sections 4.3 and 8) defines it as the
fixed bilinear map following the multiplication table of the 3D PGA geometric
antiproduct, composing two improper transforms into a motor; the coefficient
formulas below are exactly the grade-(1,3) x grade-(1,3) antiproduct table. -/
def antiproductFF (a b : Flector3D) : Motor3D :=
  ⟨⟨-a.g.x * b.p.w - a.g.y * b.g.z + a.g.z * b.g.y - a.p.w * b.g.x,
    a.g.x * b.g.z - a.g.y * b.p.w - a.g.z * b.g.x - a.p.w * b.g.y,
    -a.g.x * b.g.y + a.g.y * b.g.x - a.g.z * b.p.w - a.p.w * b.g.z,
    a.g.x * b.g.x + a.g.y * b.g.y + a.g.z * b.g.z - a.p.w * b.p.w⟩,
   ⟨-a.g.w * b.g.x + a.g.x * b.g.w + a.g.y * b.p.z - a.g.z * b.p.y + a.p.w * b.p.x - a.p.x * b.p.w - a.p.y * b.g.z + a.p.z * b.g.y,
    -a.g.w * b.g.y - a.g.x * b.p.z + a.g.y * b.g.w + a.g.z * b.p.x + a.p.w * b.p.y + a.p.x * b.g.z - a.p.y * b.p.w - a.p.z * b.g.x,
    -a.g.w * b.g.z + a.g.x * b.p.y - a.g.y * b.p.x + a.g.z * b.g.w + a.p.w * b.p.z - a.p.x * b.g.y + a.p.y * b.g.x - a.p.z * b.p.w,
    -a.g.w * b.p.w - a.g.x * b.p.x - a.g.y * b.p.y - a.g.z * b.p.z + a.p.w * b.g.w + a.p.x * b.g.x + a.p.y * b.g.y + a.p.z * b.g.z⟩⟩

/-- Modelled from the spec: the geometric antiproduct flector × motor
(`Flector3D operator *(const Flector3D& a, const Motor3D& b)`, declared in
TSFlector3D.h but implemented outside src/), producing a flector (spec section 4.3). -/
def antiproductFM (a : Flector3D) (b : Motor3D) : Flector3D :=
  ⟨⟨a.g.w * b.v.x - a.g.x * b.m.w - a.g.y * b.m.z + a.g.z * b.m.y - a.p.w * b.m.x + a.p.x * b.v.w + a.p.y * b.v.z - a.p.z * b.v.y,
    a.g.w * b.v.y + a.g.x * b.m.z - a.g.y * b.m.w - a.g.z * b.m.x - a.p.w * b.m.y - a.p.x * b.v.z + a.p.y * b.v.w + a.p.z * b.v.x,
    a.g.w * b.v.z - a.g.x * b.m.y + a.g.y * b.m.x - a.g.z * b.m.w - a.p.w * b.m.z + a.p.x * b.v.y - a.p.y * b.v.x + a.p.z * b.v.w,
    -a.g.x * b.v.x - a.g.y * b.v.y - a.g.z * b.v.z + a.p.w * b.v.w⟩,
   ⟨a.g.x * b.v.w + a.g.y * b.v.z - a.g.z * b.v.y + a.p.w * b.v.x,
    -a.g.x * b.v.z + a.g.y * b.v.w + a.g.z * b.v.x + a.p.w * b.v.y,
    a.g.x * b.v.y - a.g.y * b.v.x + a.g.z * b.v.w + a.p.w * b.v.z,
    a.g.w * b.v.w + a.g.x * b.m.x + a.g.y * b.m.y + a.g.z * b.m.z - a.p.w * b.m.w - a.p.x * b.v.x - a.p.y * b.v.y - a.p.z * b.v.z⟩⟩

/-- Modelled from the spec: the geometric antiproduct motor × flector
(`Flector3D operator *(const Motor3D& a, const Flector3D& b)`, declared in
TSFlector3D.h but implemented outside src/), producing a flector (spec section 4.3). -/
def antiproductMF (a : Motor3D) (b : Flector3D) : Flector3D :=
  ⟨⟨a.m.w * b.g.x + a.m.x * b.p.w + a.m.y * b.g.z - a.m.z * b.g.y + a.v.w * b.p.x + a.v.x * b.g.w + a.v.y * b.p.z - a.v.z * b.p.y,
    a.m.w * b.g.y - a.m.x * b.g.z + a.m.y * b.p.w + a.m.z * b.g.x + a.v.w * b.p.y - a.v.x * b.p.z + a.v.y * b.g.w + a.v.z * b.p.x,
    a.m.w * b.g.z + a.m.x * b.g.y - a.m.y * b.g.x + a.m.z * b.p.w + a.v.w * b.p.z + a.v.x * b.p.y - a.v.y * b.p.x + a.v.z * b.g.w,
    a.v.w * b.p.w - a.v.x * b.g.x - a.v.y * b.g.y - a.v.z * b.g.z⟩,
   ⟨a.v.w * b.g.x + a.v.x * b.p.w + a.v.y * b.g.z - a.v.z * b.g.y,
    a.v.w * b.g.y - a.v.x * b.g.z + a.v.y * b.p.w + a.v.z * b.g.x,
    a.v.w * b.g.z + a.v.x * b.g.y - a.v.y * b.g.x + a.v.z * b.p.w,
    a.m.w * b.p.w - a.m.x * b.g.x - a.m.y * b.g.y - a.m.z * b.g.z + a.v.w * b.g.w - a.v.x * b.p.x - a.v.y * b.p.y - a.v.z * b.p.z⟩⟩

/-- Modelled from the spec: `Vector3D Transform(const Vector3D& v, const Flector3D& F)`
(declared in TSFlector3D.h, implemented outside src/).  Spec section 4.5: the sandwich
antiproduct action of the operator on a 3D direction vector, expanded to its closed bilinear form. -/
def TransformVec3 (v : Vector3D) (F : Flector3D) : Vector3D :=
  ⟨-F.g.x * F.g.x * v.x - 2 * F.g.x * F.g.y * v.y - 2 * F.g.x * F.g.z * v.z + F.g.y * F.g.y * v.x - 2 * F.g.y * F.p.w * v.z + F.g.z * F.g.z * v.x + 2 * F.g.z * F.p.w * v.y - F.p.w * F.p.w * v.x,
   F.g.x * F.g.x * v.y - 2 * F.g.x * F.g.y * v.x + 2 * F.g.x * F.p.w * v.z - F.g.y * F.g.y * v.y - 2 * F.g.y * F.g.z * v.z + F.g.z * F.g.z * v.y - 2 * F.g.z * F.p.w * v.x - F.p.w * F.p.w * v.y,
   F.g.x * F.g.x * v.z - 2 * F.g.x * F.g.z * v.x - 2 * F.g.x * F.p.w * v.y + F.g.y * F.g.y * v.z - 2 * F.g.y * F.g.z * v.y + 2 * F.g.y * F.p.w * v.x - F.g.z * F.g.z * v.z - F.p.w * F.p.w * v.z⟩

/-- Modelled from the spec: `Bivector3D Transform(const Bivector3D& v, const Flector3D& F)`
(declared in TSFlector3D.h, implemented outside src/).  Spec section 4.5: the sandwich
antiproduct action of the operator on a bivector, expanded to its closed bilinear form. -/
def TransformBiv3 (b : Bivector3D) (F : Flector3D) : Bivector3D :=
  ⟨F.g.x * F.g.x * b.x + 2 * F.g.x * F.g.y * b.y + 2 * F.g.x * F.g.z * b.z - F.g.y * F.g.y * b.x + 2 * F.g.y * F.p.w * b.z - F.g.z * F.g.z * b.x - 2 * F.g.z * F.p.w * b.y + F.p.w * F.p.w * b.x,
   -F.g.x * F.g.x * b.y + 2 * F.g.x * F.g.y * b.x - 2 * F.g.x * F.p.w * b.z + F.g.y * F.g.y * b.y + 2 * F.g.y * F.g.z * b.z - F.g.z * F.g.z * b.y + 2 * F.g.z * F.p.w * b.x + F.p.w * F.p.w * b.y,
   -F.g.x * F.g.x * b.z + 2 * F.g.x * F.g.z * b.x + 2 * F.g.x * F.p.w * b.y - F.g.y * F.g.y * b.z + 2 * F.g.y * F.g.z * b.y - 2 * F.g.y * F.p.w * b.x + F.g.z * F.g.z * b.z + F.p.w * F.p.w * b.z⟩

/-- Modelled from the spec: `Vector4D Transform(const Vector4D& p, const Flector3D& F)`
(declared in TSFlector3D.h, implemented outside src/).  Spec section 4.5: the sandwich
antiproduct action of the operator on a homogeneous 4D vector, expanded to its closed bilinear form. -/
def TransformVec4 (q : Vector4D) (F : Flector3D) : Vector4D :=
  ⟨-2 * F.g.w * F.g.x * q.w - F.g.x * F.g.x * q.x - 2 * F.g.x * F.g.y * q.y - 2 * F.g.x * F.g.z * q.z + F.g.y * F.g.y * q.x - 2 * F.g.y * F.p.w * q.z + 2 * F.g.y * F.p.z * q.w + F.g.z * F.g.z * q.x + 2 * F.g.z * F.p.w * q.y - 2 * F.g.z * F.p.y * q.w - F.p.w * F.p.w * q.x + 2 * F.p.w * F.p.x * q.w,
   -2 * F.g.w * F.g.y * q.w + F.g.x * F.g.x * q.y - 2 * F.g.x * F.g.y * q.x + 2 * F.g.x * F.p.w * q.z - 2 * F.g.x * F.p.z * q.w - F.g.y * F.g.y * q.y - 2 * F.g.y * F.g.z * q.z + F.g.z * F.g.z * q.y - 2 * F.g.z * F.p.w * q.x + 2 * F.g.z * F.p.x * q.w - F.p.w * F.p.w * q.y + 2 * F.p.w * F.p.y * q.w,
   -2 * F.g.w * F.g.z * q.w + F.g.x * F.g.x * q.z - 2 * F.g.x * F.g.z * q.x - 2 * F.g.x * F.p.w * q.y + 2 * F.g.x * F.p.y * q.w + F.g.y * F.g.y * q.z - 2 * F.g.y * F.g.z * q.y + 2 * F.g.y * F.p.w * q.x - 2 * F.g.y * F.p.x * q.w - F.g.z * F.g.z * q.z - F.p.w * F.p.w * q.z + 2 * F.p.w * F.p.z * q.w,
   F.g.x * F.g.x * q.w + F.g.y * F.g.y * q.w + F.g.z * F.g.z * q.w + F.p.w * F.p.w * q.w⟩

/-- Modelled from the spec: `Point3D Transform(const Point3D& p, const Flector3D& F)`
(declared in TSFlector3D.h, implemented outside src/).  Spec section 4.5: the sandwich
antiproduct action of the operator on a unit-weight point (w = 1, the w output being the weight of F), expanded to its closed bilinear form. -/
def TransformPoint (q : Point3D) (F : Flector3D) : Point3D :=
  ⟨-2 * F.g.w * F.g.x - F.g.x * F.g.x * q.x - 2 * F.g.x * F.g.y * q.y - 2 * F.g.x * F.g.z * q.z + F.g.y * F.g.y * q.x - 2 * F.g.y * F.p.w * q.z + 2 * F.g.y * F.p.z + F.g.z * F.g.z * q.x + 2 * F.g.z * F.p.w * q.y - 2 * F.g.z * F.p.y - F.p.w * F.p.w * q.x + 2 * F.p.w * F.p.x,
   -2 * F.g.w * F.g.y + F.g.x * F.g.x * q.y - 2 * F.g.x * F.g.y * q.x + 2 * F.g.x * F.p.w * q.z - 2 * F.g.x * F.p.z - F.g.y * F.g.y * q.y - 2 * F.g.y * F.g.z * q.z + F.g.z * F.g.z * q.y - 2 * F.g.z * F.p.w * q.x + 2 * F.g.z * F.p.x - F.p.w * F.p.w * q.y + 2 * F.p.w * F.p.y,
   -2 * F.g.w * F.g.z + F.g.x * F.g.x * q.z - 2 * F.g.x * F.g.z * q.x - 2 * F.g.x * F.p.w * q.y + 2 * F.g.x * F.p.y + F.g.y * F.g.y * q.z - 2 * F.g.y * F.g.z * q.y + 2 * F.g.y * F.p.w * q.x - 2 * F.g.y * F.p.x - F.g.z * F.g.z * q.z - F.p.w * F.p.w * q.z + 2 * F.p.w * F.p.z⟩

/-- Modelled from the spec: `Line3D Transform(const Line3D& l, const Flector3D& F)`
(declared in TSFlector3D.h, implemented outside src/).  Spec section 4.5: the sandwich
antiproduct action of the operator on a line (direction and moment), expanded to its closed bilinear form. -/
def TransformLine (l : Line3D) (F : Flector3D) : Line3D :=
  ⟨⟨-F.g.x * F.g.x * l.v.x - 2 * F.g.x * F.g.y * l.v.y - 2 * F.g.x * F.g.z * l.v.z + F.g.y * F.g.y * l.v.x - 2 * F.g.y * F.p.w * l.v.z + F.g.z * F.g.z * l.v.x + 2 * F.g.z * F.p.w * l.v.y - F.p.w * F.p.w * l.v.x,
    F.g.x * F.g.x * l.v.y - 2 * F.g.x * F.g.y * l.v.x + 2 * F.g.x * F.p.w * l.v.z - F.g.y * F.g.y * l.v.y - 2 * F.g.y * F.g.z * l.v.z + F.g.z * F.g.z * l.v.y - 2 * F.g.z * F.p.w * l.v.x - F.p.w * F.p.w * l.v.y,
    F.g.x * F.g.x * l.v.z - 2 * F.g.x * F.g.z * l.v.x - 2 * F.g.x * F.p.w * l.v.y + F.g.y * F.g.y * l.v.z - 2 * F.g.y * F.g.z * l.v.y + 2 * F.g.y * F.p.w * l.v.x - F.g.z * F.g.z * l.v.z - F.p.w * F.p.w * l.v.z⟩,
   ⟨-2 * F.g.w * F.g.y * l.v.z + 2 * F.g.w * F.g.z * l.v.y - 2 * F.g.w * F.p.w * l.v.x + F.g.x * F.g.x * l.m.x + 2 * F.g.x * F.g.y * l.m.y + 2 * F.g.x * F.g.z * l.m.z - 2 * F.g.x * F.p.x * l.v.x - 2 * F.g.x * F.p.y * l.v.y - 2 * F.g.x * F.p.z * l.v.z - F.g.y * F.g.y * l.m.x + 2 * F.g.y * F.p.w * l.m.z - 2 * F.g.y * F.p.x * l.v.y + 2 * F.g.y * F.p.y * l.v.x - F.g.z * F.g.z * l.m.x - 2 * F.g.z * F.p.w * l.m.y - 2 * F.g.z * F.p.x * l.v.z + 2 * F.g.z * F.p.z * l.v.x + F.p.w * F.p.w * l.m.x - 2 * F.p.w * F.p.y * l.v.z + 2 * F.p.w * F.p.z * l.v.y,
    2 * F.g.w * F.g.x * l.v.z - 2 * F.g.w * F.g.z * l.v.x - 2 * F.g.w * F.p.w * l.v.y - F.g.x * F.g.x * l.m.y + 2 * F.g.x * F.g.y * l.m.x - 2 * F.g.x * F.p.w * l.m.z + 2 * F.g.x * F.p.x * l.v.y - 2 * F.g.x * F.p.y * l.v.x + F.g.y * F.g.y * l.m.y + 2 * F.g.y * F.g.z * l.m.z - 2 * F.g.y * F.p.x * l.v.x - 2 * F.g.y * F.p.y * l.v.y - 2 * F.g.y * F.p.z * l.v.z - F.g.z * F.g.z * l.m.y + 2 * F.g.z * F.p.w * l.m.x - 2 * F.g.z * F.p.y * l.v.z + 2 * F.g.z * F.p.z * l.v.y + F.p.w * F.p.w * l.m.y + 2 * F.p.w * F.p.x * l.v.z - 2 * F.p.w * F.p.z * l.v.x,
    -2 * F.g.w * F.g.x * l.v.y + 2 * F.g.w * F.g.y * l.v.x - 2 * F.g.w * F.p.w * l.v.z - F.g.x * F.g.x * l.m.z + 2 * F.g.x * F.g.z * l.m.x + 2 * F.g.x * F.p.w * l.m.y + 2 * F.g.x * F.p.x * l.v.z - 2 * F.g.x * F.p.z * l.v.x - F.g.y * F.g.y * l.m.z + 2 * F.g.y * F.g.z * l.m.y - 2 * F.g.y * F.p.w * l.m.x + 2 * F.g.y * F.p.y * l.v.z - 2 * F.g.y * F.p.z * l.v.y + F.g.z * F.g.z * l.m.z - 2 * F.g.z * F.p.x * l.v.x - 2 * F.g.z * F.p.y * l.v.y - 2 * F.g.z * F.p.z * l.v.z + F.p.w * F.p.w * l.m.z - 2 * F.p.w * F.p.x * l.v.y + 2 * F.p.w * F.p.y * l.v.x⟩⟩

/-- Modelled from the spec: `Plane3D Transform(const Plane3D& g, const Flector3D& F)`
(declared in TSFlector3D.h, implemented outside src/).  Spec section 4.5: the sandwich
antiproduct action of the operator on a plane, expanded to its closed bilinear form. -/
def TransformPlane (h : Plane3D) (F : Flector3D) : Plane3D :=
  ⟨F.g.x * F.g.x * h.x + 2 * F.g.x * F.g.y * h.y + 2 * F.g.x * F.g.z * h.z - F.g.y * F.g.y * h.x + 2 * F.g.y * F.p.w * h.z - F.g.z * F.g.z * h.x - 2 * F.g.z * F.p.w * h.y + F.p.w * F.p.w * h.x,
   -F.g.x * F.g.x * h.y + 2 * F.g.x * F.g.y * h.x - 2 * F.g.x * F.p.w * h.z + F.g.y * F.g.y * h.y + 2 * F.g.y * F.g.z * h.z - F.g.z * F.g.z * h.y + 2 * F.g.z * F.p.w * h.x + F.p.w * F.p.w * h.y,
   -F.g.x * F.g.x * h.z + 2 * F.g.x * F.g.z * h.x + 2 * F.g.x * F.p.w * h.y - F.g.y * F.g.y * h.z + 2 * F.g.y * F.g.z * h.y - 2 * F.g.y * F.p.w * h.x + F.g.z * F.g.z * h.z + F.p.w * F.p.w * h.z,
   2 * F.g.w * F.g.x * h.x + 2 * F.g.w * F.g.y * h.y + 2 * F.g.w * F.g.z * h.z - F.g.x * F.g.x * h.w + 2 * F.g.x * F.p.y * h.z - 2 * F.g.x * F.p.z * h.y - F.g.y * F.g.y * h.w - 2 * F.g.y * F.p.x * h.z + 2 * F.g.y * F.p.z * h.x - F.g.z * F.g.z * h.w + 2 * F.g.z * F.p.x * h.y - 2 * F.g.z * F.p.y * h.x - F.p.w * F.p.w * h.w - 2 * F.p.w * F.p.x * h.x - 2 * F.p.w * F.p.y * h.y - 2 * F.p.w * F.p.z * h.z⟩

/-- Modelled from the spec: the motor (external collaborator, spec section 6) applied to a 3D direction vector
by its sandwich antiproduct action, expanded to its closed bilinear form. -/
def MotorTransformVec3 (v : Vector3D) (Q : Motor3D) : Vector3D :=
  ⟨Q.v.w * Q.v.w * v.x + 2 * Q.v.w * Q.v.y * v.z - 2 * Q.v.w * Q.v.z * v.y + Q.v.x * Q.v.x * v.x + 2 * Q.v.x * Q.v.y * v.y + 2 * Q.v.x * Q.v.z * v.z - Q.v.y * Q.v.y * v.x - Q.v.z * Q.v.z * v.x,
   Q.v.w * Q.v.w * v.y - 2 * Q.v.w * Q.v.x * v.z + 2 * Q.v.w * Q.v.z * v.x - Q.v.x * Q.v.x * v.y + 2 * Q.v.x * Q.v.y * v.x + Q.v.y * Q.v.y * v.y + 2 * Q.v.y * Q.v.z * v.z - Q.v.z * Q.v.z * v.y,
   Q.v.w * Q.v.w * v.z + 2 * Q.v.w * Q.v.x * v.y - 2 * Q.v.w * Q.v.y * v.x - Q.v.x * Q.v.x * v.z + 2 * Q.v.x * Q.v.z * v.x - Q.v.y * Q.v.y * v.z + 2 * Q.v.y * Q.v.z * v.y + Q.v.z * Q.v.z * v.z⟩

/-- Modelled from the spec: the motor (external collaborator, spec section 6) applied to a bivector
by its sandwich antiproduct action, expanded to its closed bilinear form. -/
def MotorTransformBiv3 (b : Bivector3D) (Q : Motor3D) : Bivector3D :=
  ⟨Q.v.w * Q.v.w * b.x + 2 * Q.v.w * Q.v.y * b.z - 2 * Q.v.w * Q.v.z * b.y + Q.v.x * Q.v.x * b.x + 2 * Q.v.x * Q.v.y * b.y + 2 * Q.v.x * Q.v.z * b.z - Q.v.y * Q.v.y * b.x - Q.v.z * Q.v.z * b.x,
   Q.v.w * Q.v.w * b.y - 2 * Q.v.w * Q.v.x * b.z + 2 * Q.v.w * Q.v.z * b.x - Q.v.x * Q.v.x * b.y + 2 * Q.v.x * Q.v.y * b.x + Q.v.y * Q.v.y * b.y + 2 * Q.v.y * Q.v.z * b.z - Q.v.z * Q.v.z * b.y,
   Q.v.w * Q.v.w * b.z + 2 * Q.v.w * Q.v.x * b.y - 2 * Q.v.w * Q.v.y * b.x - Q.v.x * Q.v.x * b.z + 2 * Q.v.x * Q.v.z * b.x - Q.v.y * Q.v.y * b.z + 2 * Q.v.y * Q.v.z * b.y + Q.v.z * Q.v.z * b.z⟩

/-- Modelled from the spec: the motor (external collaborator, spec section 6) applied to a homogeneous 4D vector
by its sandwich antiproduct action, expanded to its closed bilinear form. -/
def MotorTransformVec4 (q : Vector4D) (Q : Motor3D) : Vector4D :=
  ⟨-2 * Q.m.w * Q.v.x * q.w + 2 * Q.m.x * Q.v.w * q.w - 2 * Q.m.y * Q.v.z * q.w + 2 * Q.m.z * Q.v.y * q.w + Q.v.w * Q.v.w * q.x + 2 * Q.v.w * Q.v.y * q.z - 2 * Q.v.w * Q.v.z * q.y + Q.v.x * Q.v.x * q.x + 2 * Q.v.x * Q.v.y * q.y + 2 * Q.v.x * Q.v.z * q.z - Q.v.y * Q.v.y * q.x - Q.v.z * Q.v.z * q.x,
   -2 * Q.m.w * Q.v.y * q.w + 2 * Q.m.x * Q.v.z * q.w + 2 * Q.m.y * Q.v.w * q.w - 2 * Q.m.z * Q.v.x * q.w + Q.v.w * Q.v.w * q.y - 2 * Q.v.w * Q.v.x * q.z + 2 * Q.v.w * Q.v.z * q.x - Q.v.x * Q.v.x * q.y + 2 * Q.v.x * Q.v.y * q.x + Q.v.y * Q.v.y * q.y + 2 * Q.v.y * Q.v.z * q.z - Q.v.z * Q.v.z * q.y,
   -2 * Q.m.w * Q.v.z * q.w - 2 * Q.m.x * Q.v.y * q.w + 2 * Q.m.y * Q.v.x * q.w + 2 * Q.m.z * Q.v.w * q.w + Q.v.w * Q.v.w * q.z + 2 * Q.v.w * Q.v.x * q.y - 2 * Q.v.w * Q.v.y * q.x - Q.v.x * Q.v.x * q.z + 2 * Q.v.x * Q.v.z * q.x - Q.v.y * Q.v.y * q.z + 2 * Q.v.y * Q.v.z * q.y + Q.v.z * Q.v.z * q.z,
   Q.v.w * Q.v.w * q.w + Q.v.x * Q.v.x * q.w + Q.v.y * Q.v.y * q.w + Q.v.z * Q.v.z * q.w⟩

/-- Modelled from the spec: the motor (external collaborator, spec section 6) applied to a unit-weight point (w = 1)
by its sandwich antiproduct action, expanded to its closed bilinear form. -/
def MotorTransformPoint (q : Point3D) (Q : Motor3D) : Point3D :=
  ⟨-2 * Q.m.w * Q.v.x + 2 * Q.m.x * Q.v.w - 2 * Q.m.y * Q.v.z + 2 * Q.m.z * Q.v.y + Q.v.w * Q.v.w * q.x + 2 * Q.v.w * Q.v.y * q.z - 2 * Q.v.w * Q.v.z * q.y + Q.v.x * Q.v.x * q.x + 2 * Q.v.x * Q.v.y * q.y + 2 * Q.v.x * Q.v.z * q.z - Q.v.y * Q.v.y * q.x - Q.v.z * Q.v.z * q.x,
   -2 * Q.m.w * Q.v.y + 2 * Q.m.x * Q.v.z + 2 * Q.m.y * Q.v.w - 2 * Q.m.z * Q.v.x + Q.v.w * Q.v.w * q.y - 2 * Q.v.w * Q.v.x * q.z + 2 * Q.v.w * Q.v.z * q.x - Q.v.x * Q.v.x * q.y + 2 * Q.v.x * Q.v.y * q.x + Q.v.y * Q.v.y * q.y + 2 * Q.v.y * Q.v.z * q.z - Q.v.z * Q.v.z * q.y,
   -2 * Q.m.w * Q.v.z - 2 * Q.m.x * Q.v.y + 2 * Q.m.y * Q.v.x + 2 * Q.m.z * Q.v.w + Q.v.w * Q.v.w * q.z + 2 * Q.v.w * Q.v.x * q.y - 2 * Q.v.w * Q.v.y * q.x - Q.v.x * Q.v.x * q.z + 2 * Q.v.x * Q.v.z * q.x - Q.v.y * Q.v.y * q.z + 2 * Q.v.y * Q.v.z * q.y + Q.v.z * Q.v.z * q.z⟩

/-- Modelled from the spec: the motor (external collaborator, spec section 6) applied to a line
by its sandwich antiproduct action, expanded to its closed bilinear form. -/
def MotorTransformLine (l : Line3D) (Q : Motor3D) : Line3D :=
  ⟨⟨Q.v.w * Q.v.w * l.v.x + 2 * Q.v.w * Q.v.y * l.v.z - 2 * Q.v.w * Q.v.z * l.v.y + Q.v.x * Q.v.x * l.v.x + 2 * Q.v.x * Q.v.y * l.v.y + 2 * Q.v.x * Q.v.z * l.v.z - Q.v.y * Q.v.y * l.v.x - Q.v.z * Q.v.z * l.v.x,
    Q.v.w * Q.v.w * l.v.y - 2 * Q.v.w * Q.v.x * l.v.z + 2 * Q.v.w * Q.v.z * l.v.x - Q.v.x * Q.v.x * l.v.y + 2 * Q.v.x * Q.v.y * l.v.x + Q.v.y * Q.v.y * l.v.y + 2 * Q.v.y * Q.v.z * l.v.z - Q.v.z * Q.v.z * l.v.y,
    Q.v.w * Q.v.w * l.v.z + 2 * Q.v.w * Q.v.x * l.v.y - 2 * Q.v.w * Q.v.y * l.v.x - Q.v.x * Q.v.x * l.v.z + 2 * Q.v.x * Q.v.z * l.v.x - Q.v.y * Q.v.y * l.v.z + 2 * Q.v.y * Q.v.z * l.v.y + Q.v.z * Q.v.z * l.v.z⟩,
   ⟨2 * Q.m.w * Q.v.w * l.v.x + 2 * Q.m.w * Q.v.y * l.v.z - 2 * Q.m.w * Q.v.z * l.v.y + 2 * Q.m.x * Q.v.x * l.v.x + 2 * Q.m.x * Q.v.y * l.v.y + 2 * Q.m.x * Q.v.z * l.v.z + 2 * Q.m.y * Q.v.w * l.v.z + 2 * Q.m.y * Q.v.x * l.v.y - 2 * Q.m.y * Q.v.y * l.v.x - 2 * Q.m.z * Q.v.w * l.v.y + 2 * Q.m.z * Q.v.x * l.v.z - 2 * Q.m.z * Q.v.z * l.v.x + Q.v.w * Q.v.w * l.m.x + 2 * Q.v.w * Q.v.y * l.m.z - 2 * Q.v.w * Q.v.z * l.m.y + Q.v.x * Q.v.x * l.m.x + 2 * Q.v.x * Q.v.y * l.m.y + 2 * Q.v.x * Q.v.z * l.m.z - Q.v.y * Q.v.y * l.m.x - Q.v.z * Q.v.z * l.m.x,
    2 * Q.m.w * Q.v.w * l.v.y - 2 * Q.m.w * Q.v.x * l.v.z + 2 * Q.m.w * Q.v.z * l.v.x - 2 * Q.m.x * Q.v.w * l.v.z - 2 * Q.m.x * Q.v.x * l.v.y + 2 * Q.m.x * Q.v.y * l.v.x + 2 * Q.m.y * Q.v.x * l.v.x + 2 * Q.m.y * Q.v.y * l.v.y + 2 * Q.m.y * Q.v.z * l.v.z + 2 * Q.m.z * Q.v.w * l.v.x + 2 * Q.m.z * Q.v.y * l.v.z - 2 * Q.m.z * Q.v.z * l.v.y + Q.v.w * Q.v.w * l.m.y - 2 * Q.v.w * Q.v.x * l.m.z + 2 * Q.v.w * Q.v.z * l.m.x - Q.v.x * Q.v.x * l.m.y + 2 * Q.v.x * Q.v.y * l.m.x + Q.v.y * Q.v.y * l.m.y + 2 * Q.v.y * Q.v.z * l.m.z - Q.v.z * Q.v.z * l.m.y,
    2 * Q.m.w * Q.v.w * l.v.z + 2 * Q.m.w * Q.v.x * l.v.y - 2 * Q.m.w * Q.v.y * l.v.x + 2 * Q.m.x * Q.v.w * l.v.y - 2 * Q.m.x * Q.v.x * l.v.z + 2 * Q.m.x * Q.v.z * l.v.x - 2 * Q.m.y * Q.v.w * l.v.x - 2 * Q.m.y * Q.v.y * l.v.z + 2 * Q.m.y * Q.v.z * l.v.y + 2 * Q.m.z * Q.v.x * l.v.x + 2 * Q.m.z * Q.v.y * l.v.y + 2 * Q.m.z * Q.v.z * l.v.z + Q.v.w * Q.v.w * l.m.z + 2 * Q.v.w * Q.v.x * l.m.y - 2 * Q.v.w * Q.v.y * l.m.x - Q.v.x * Q.v.x * l.m.z + 2 * Q.v.x * Q.v.z * l.m.x - Q.v.y * Q.v.y * l.m.z + 2 * Q.v.y * Q.v.z * l.m.y + Q.v.z * Q.v.z * l.m.z⟩⟩

/-- Modelled from the spec: the motor (external collaborator, spec section 6) applied to a plane
by its sandwich antiproduct action, expanded to its closed bilinear form. -/
def MotorTransformPlane (h : Plane3D) (Q : Motor3D) : Plane3D :=
  ⟨Q.v.w * Q.v.w * h.x + 2 * Q.v.w * Q.v.y * h.z - 2 * Q.v.w * Q.v.z * h.y + Q.v.x * Q.v.x * h.x + 2 * Q.v.x * Q.v.y * h.y + 2 * Q.v.x * Q.v.z * h.z - Q.v.y * Q.v.y * h.x - Q.v.z * Q.v.z * h.x,
   Q.v.w * Q.v.w * h.y - 2 * Q.v.w * Q.v.x * h.z + 2 * Q.v.w * Q.v.z * h.x - Q.v.x * Q.v.x * h.y + 2 * Q.v.x * Q.v.y * h.x + Q.v.y * Q.v.y * h.y + 2 * Q.v.y * Q.v.z * h.z - Q.v.z * Q.v.z * h.y,
   Q.v.w * Q.v.w * h.z + 2 * Q.v.w * Q.v.x * h.y - 2 * Q.v.w * Q.v.y * h.x - Q.v.x * Q.v.x * h.z + 2 * Q.v.x * Q.v.z * h.x - Q.v.y * Q.v.y * h.z + 2 * Q.v.y * Q.v.z * h.y + Q.v.z * Q.v.z * h.z,
   2 * Q.m.w * Q.v.x * h.x + 2 * Q.m.w * Q.v.y * h.y + 2 * Q.m.w * Q.v.z * h.z - 2 * Q.m.x * Q.v.w * h.x - 2 * Q.m.x * Q.v.y * h.z + 2 * Q.m.x * Q.v.z * h.y - 2 * Q.m.y * Q.v.w * h.y + 2 * Q.m.y * Q.v.x * h.z - 2 * Q.m.y * Q.v.z * h.x - 2 * Q.m.z * Q.v.w * h.z - 2 * Q.m.z * Q.v.x * h.y + 2 * Q.m.z * Q.v.y * h.x + Q.v.w * Q.v.w * h.w + Q.v.x * Q.v.x * h.w + Q.v.y * Q.v.y * h.w + Q.v.z * Q.v.z * h.w⟩

/-- Source `operator ~(const Flector3D& F)`: returns `Antireverse(F)`. -/
def flectorTilde (F : Flector3D) : Flector3D := Antireverse F

/-! ## Claim theorems -/

/-- C6: for every flector F, `Reverse(F)`, `Antireverse(F)` and `operator ~`
all return the same value, obtained by negating exactly the four vector-part
components and leaving the four trivector-part components unchanged. -/
theorem reverse_eq_antireverse (F : Flector3D) :
    Reverse F = Antireverse F ∧ flectorTilde F = Reverse F ∧
    Reverse F = ⟨⟨-F.p.x, -F.p.y, -F.p.z, -F.p.w⟩, ⟨F.g.x, F.g.y, F.g.z, F.g.w⟩⟩ :=
  ⟨rfl, rfl, rfl⟩

/-- C7: for every flector F, `BulkNorm(F)^2 + WeightNorm(F)^2` equals the sum of
the squares of all eight components, bulk covering exactly p.x, p.y, p.z, g.w
and weight covering exactly p.w, g.x, g.y, g.z. -/
theorem norm_decomposition (F : Flector3D) :
    BulkNorm F * BulkNorm F + WeightNorm F * WeightNorm F =
      F.p.x * F.p.x + F.p.y * F.p.y + F.p.z * F.p.z + F.p.w * F.p.w +
      F.g.x * F.g.x + F.g.y * F.g.y + F.g.z * F.g.z + F.g.w * F.g.w := by
  unfold BulkNorm WeightNorm
  have hb : (0:ℝ) ≤ F.p.x * F.p.x + F.p.y * F.p.y + F.p.z * F.p.z + F.g.w * F.g.w := by
    nlinarith [mul_self_nonneg F.p.x, mul_self_nonneg F.p.y, mul_self_nonneg F.p.z,
      mul_self_nonneg F.g.w]
  have hw : (0:ℝ) ≤ F.p.w * F.p.w + F.g.x * F.g.x + F.g.y * F.g.y + F.g.z * F.g.z := by
    nlinarith [mul_self_nonneg F.p.w, mul_self_nonneg F.g.x, mul_self_nonneg F.g.y,
      mul_self_nonneg F.g.z]
  rw [Real.mul_self_sqrt hb, Real.mul_self_sqrt hw]
  ring

/-- C9: for every flector F and scalar n, both `operator /(F, n)` and
`operator /=` compute exactly F multiplied component-wise by the reciprocal
1/n on all 8 components (no zero check is performed; both are total). -/
theorem scalar_division_is_reciprocal_multiplication (F : Flector3D) (n : ℝ) :
    flectorDiv F n = flectorMulScalar F (1 / n) ∧
    flectorDivAssign F n = flectorMulScalar F (1 / n) ∧
    flectorDiv F n = flectorDivAssign F n :=
  ⟨rfl, rfl, rfl⟩

/-- C4: for every flector whose four weight components are not all zero, both
the member `Unitize` and the free `Unitize` multiply all 8 components by the
inverse square root of `p.w^2 + g.x^2 + g.y^2 + g.z^2`, and the result
satisfies the unitized-flector invariant. -/
theorem unitize_correct (F : Flector3D)
    (h : ¬(F.p.w = 0 ∧ F.g.x = 0 ∧ F.g.y = 0 ∧ F.g.z = 0)) :
    F.Unitize = flectorMulScalar F
      (InverseSqrt (F.p.w * F.p.w + F.g.x * F.g.x + F.g.y * F.g.y + F.g.z * F.g.z)) ∧
    Unitize F = F.Unitize ∧
    (F.Unitize).p.w * (F.Unitize).p.w + (F.Unitize).g.x * (F.Unitize).g.x +
      (F.Unitize).g.y * (F.Unitize).g.y + (F.Unitize).g.z * (F.Unitize).g.z = 1 := by
  refine ⟨rfl, rfl, ?_⟩
  have hS : 0 < F.p.w * F.p.w + F.g.x * F.g.x + F.g.y * F.g.y + F.g.z * F.g.z := by
    have n1 := mul_self_nonneg F.p.w
    have n2 := mul_self_nonneg F.g.x
    have n3 := mul_self_nonneg F.g.y
    have n4 := mul_self_nonneg F.g.z
    rcases not_and_or.mp h with h1 | h23
    · have := mul_self_pos.mpr h1; nlinarith
    rcases not_and_or.mp h23 with h2 | h34
    · have := mul_self_pos.mpr h2; nlinarith
    rcases not_and_or.mp h34 with h3 | h4
    · have := mul_self_pos.mpr h3; nlinarith
    · have := mul_self_pos.mpr h4; nlinarith
  set S := F.p.w * F.p.w + F.g.x * F.g.x + F.g.y * F.g.y + F.g.z * F.g.z with hSdef
  have key : F.p.w * InverseSqrt S * (F.p.w * InverseSqrt S) +
      F.g.x * InverseSqrt S * (F.g.x * InverseSqrt S) +
      F.g.y * InverseSqrt S * (F.g.y * InverseSqrt S) +
      F.g.z * InverseSqrt S * (F.g.z * InverseSqrt S) =
      S * (InverseSqrt S * InverseSqrt S) := by rw [hSdef]; ring
  show F.p.w * InverseSqrt S * (F.p.w * InverseSqrt S) +
      F.g.x * InverseSqrt S * (F.g.x * InverseSqrt S) +
      F.g.y * InverseSqrt S * (F.g.y * InverseSqrt S) +
      F.g.z * InverseSqrt S * (F.g.z * InverseSqrt S) = 1
  rw [key]
  unfold InverseSqrt
  rw [← mul_inv, Real.mul_self_sqrt hS.le]
  exact mul_inv_cancel₀ hS.ne'

/-- Witness for C4 at the concrete flector (0,0,0,0, 0,0,1,0). -/
theorem unitize_correct_witness :
    (¬(((⟨⟨0,0,0,0⟩,⟨0,0,1,0⟩⟩ : Flector3D)).p.w = 0 ∧
        ((⟨⟨0,0,0,0⟩,⟨0,0,1,0⟩⟩ : Flector3D)).g.x = 0 ∧
        ((⟨⟨0,0,0,0⟩,⟨0,0,1,0⟩⟩ : Flector3D)).g.y = 0 ∧
        ((⟨⟨0,0,0,0⟩,⟨0,0,1,0⟩⟩ : Flector3D)).g.z = 0)) ∧
    ((⟨⟨0,0,0,0⟩,⟨0,0,1,0⟩⟩ : Flector3D)).Unitize.p.w *
        ((⟨⟨0,0,0,0⟩,⟨0,0,1,0⟩⟩ : Flector3D)).Unitize.p.w +
      ((⟨⟨0,0,0,0⟩,⟨0,0,1,0⟩⟩ : Flector3D)).Unitize.g.x *
        ((⟨⟨0,0,0,0⟩,⟨0,0,1,0⟩⟩ : Flector3D)).Unitize.g.x +
      ((⟨⟨0,0,0,0⟩,⟨0,0,1,0⟩⟩ : Flector3D)).Unitize.g.y *
        ((⟨⟨0,0,0,0⟩,⟨0,0,1,0⟩⟩ : Flector3D)).Unitize.g.y +
      ((⟨⟨0,0,0,0⟩,⟨0,0,1,0⟩⟩ : Flector3D)).Unitize.g.z *
        ((⟨⟨0,0,0,0⟩,⟨0,0,1,0⟩⟩ : Flector3D)).Unitize.g.z = 1 := by
  have h : ¬(((⟨⟨0,0,0,0⟩,⟨0,0,1,0⟩⟩ : Flector3D)).p.w = 0 ∧
      ((⟨⟨0,0,0,0⟩,⟨0,0,1,0⟩⟩ : Flector3D)).g.x = 0 ∧
      ((⟨⟨0,0,0,0⟩,⟨0,0,1,0⟩⟩ : Flector3D)).g.y = 0 ∧
      ((⟨⟨0,0,0,0⟩,⟨0,0,1,0⟩⟩ : Flector3D)).g.z = 0) := by
    simp
  exact ⟨h, (unitize_correct _ h).2.2⟩

/-- C8: for every offset and every plane whose normal has unit length, the
flector returned by `MakeTransflection` is already unitized. -/
theorem maketransflection_unitized (offset : Vector3D) (plane : Plane3D)
    (h : plane.x * plane.x + plane.y * plane.y + plane.z * plane.z = 1) :
    let F := Flector3D.MakeTransflection offset plane
    F.p.w * F.p.w + F.g.x * F.g.x + F.g.y * F.g.y + F.g.z * F.g.z = 1 := by
  intro F
  show (0 : ℝ) * 0 + plane.x * plane.x + plane.y * plane.y + plane.z * plane.z = 1
  linarith

/-- Witness for C8 at offset (1,2,3) and plane (0,0,1,5). -/
theorem maketransflection_unitized_witness :
    ((0 : ℝ) * 0 + 0 * 0 + 1 * 1 = 1) ∧
    (let F := Flector3D.MakeTransflection ⟨1,2,3⟩ ⟨0,0,1,5⟩
     F.p.w * F.p.w + F.g.x * F.g.x + F.g.y * F.g.y + F.g.z * F.g.z = 1) :=
  ⟨by norm_num, maketransflection_unitized ⟨1,2,3⟩ ⟨0,0,1,5⟩ (by norm_num)⟩

/-- C5: `MakeTransflection` with offset (0,0,0) and plane (0,0,1,0) returns the
flector with components exactly (0,0,0,0, 0,0,1,0), and transforming the point
(1,2,3) with that flector yields the point (1,2,-3). -/
theorem transflection_concrete_scenario :
    Flector3D.MakeTransflection ⟨0,0,0⟩ ⟨0,0,1,0⟩ = ⟨⟨0,0,0,0⟩,⟨0,0,1,0⟩⟩ ∧
    TransformPoint ⟨1,2,3⟩ (Flector3D.MakeTransflection ⟨0,0,0⟩ ⟨0,0,1,0⟩) = ⟨1,2,-3⟩ := by
  constructor
  · show Flector3D.mk ⟨(0 * 1 - 0 * 0) * 0.5, (0 * 0 - 0 * 1) * 0.5, (0 * 0 - 0 * 0) * 0.5, 0⟩
      ⟨0, 0, 1, 0 - (0 * 0 + 0 * 0 + 0 * 1) * 0.5⟩ = ⟨⟨0,0,0,0⟩,⟨0,0,1,0⟩⟩
    norm_num
  · unfold TransformPoint Flector3D.MakeTransflection
    simp only [Point3D.mk.injEq]
    norm_num


end Terathon

namespace Terathon

/-- Helper for C1: flector-flector composition on 3D direction vectors. -/
theorem compFF_vec3 (v : Vector3D) (F1 F2 : Flector3D) :
    TransformVec3 (TransformVec3 v F1) F2 = MotorTransformVec3 v (antiproductFF F2 F1) := by
  unfold TransformVec3 MotorTransformVec3 antiproductFF
  simp only [Vector3D.mk.injEq]
  refine ⟨?_, ?_, ?_⟩ <;> ring


/-- Helper for C1: flector-flector composition on bivectors. -/
theorem compFF_biv3 (b : Bivector3D) (F1 F2 : Flector3D) :
    TransformBiv3 (TransformBiv3 b F1) F2 = MotorTransformBiv3 b (antiproductFF F2 F1) := by
  unfold TransformBiv3 MotorTransformBiv3 antiproductFF
  simp only [Bivector3D.mk.injEq]
  refine ⟨?_, ?_, ?_⟩ <;> ring

/-- Helper for C1: flector-flector composition on homogeneous 4D vectors. -/
theorem compFF_vec4 (q : Vector4D) (F1 F2 : Flector3D) :
    TransformVec4 (TransformVec4 q F1) F2 = MotorTransformVec4 q (antiproductFF F2 F1) := by
  unfold TransformVec4 MotorTransformVec4 antiproductFF
  simp only [Vector4D.mk.injEq]
  refine ⟨?_, ?_, ?_, ?_⟩ <;> ring

/-- Helper for C1: flector-flector composition on lines. -/
theorem compFF_line (l : Line3D) (F1 F2 : Flector3D) :
    TransformLine (TransformLine l F1) F2 = MotorTransformLine l (antiproductFF F2 F1) := by
  unfold TransformLine MotorTransformLine antiproductFF
  simp only [Line3D.mk.injEq, Vector3D.mk.injEq, Bivector3D.mk.injEq]
  refine ⟨⟨?_, ?_, ?_⟩, ?_, ?_, ?_⟩ <;> ring

/-- Helper for C1: flector-flector composition on planes. -/
theorem compFF_plane (h : Plane3D) (F1 F2 : Flector3D) :
    TransformPlane (TransformPlane h F1) F2 = MotorTransformPlane h (antiproductFF F2 F1) := by
  unfold TransformPlane MotorTransformPlane antiproductFF
  simp only [Plane3D.mk.injEq]
  refine ⟨?_, ?_, ?_, ?_⟩ <;> ring

/-- Helper for C1: flector-flector composition on unit-weight points, valid when
the first flector is unitized. -/
theorem compFF_point (q : Point3D) (F1 F2 : Flector3D)
    (h : F1.p.w * F1.p.w + F1.g.x * F1.g.x + F1.g.y * F1.g.y + F1.g.z * F1.g.z = 1) :
    TransformPoint (TransformPoint q F1) F2 = MotorTransformPoint q (antiproductFF F2 F1) := by
  unfold TransformPoint MotorTransformPoint antiproductFF
  simp only [Point3D.mk.injEq]
  refine ⟨?_, ?_, ?_⟩
  · linear_combination (2*F2.g.w*F2.g.x - 2*F2.g.y*F2.p.z + 2*F2.g.z*F2.p.y - 2*F2.p.w*F2.p.x) * h
  · linear_combination (2*F2.g.w*F2.g.y + 2*F2.g.x*F2.p.z - 2*F2.g.z*F2.p.x - 2*F2.p.w*F2.p.y) * h
  · linear_combination (2*F2.g.w*F2.g.z - 2*F2.g.x*F2.p.y + 2*F2.g.y*F2.p.x - 2*F2.p.w*F2.p.z) * h

/-- Helper for C1: flector-then-motor composition on 3D direction vectors. -/
theorem compFM_vec3 (v : Vector3D) (F1 : Flector3D) (Q2 : Motor3D) :
    MotorTransformVec3 (TransformVec3 v F1) Q2 = TransformVec3 v (antiproductMF Q2 F1) := by
  unfold TransformVec3 MotorTransformVec3 antiproductMF
  simp only [Vector3D.mk.injEq]
  refine ⟨?_, ?_, ?_⟩ <;> ring

/-- Helper for C1: flector-then-motor composition on bivectors. -/
theorem compFM_biv3 (b : Bivector3D) (F1 : Flector3D) (Q2 : Motor3D) :
    MotorTransformBiv3 (TransformBiv3 b F1) Q2 = TransformBiv3 b (antiproductMF Q2 F1) := by
  unfold TransformBiv3 MotorTransformBiv3 antiproductMF
  simp only [Bivector3D.mk.injEq]
  refine ⟨?_, ?_, ?_⟩ <;> ring

/-- Helper for C1: flector-then-motor composition on homogeneous 4D vectors. -/
theorem compFM_vec4 (q : Vector4D) (F1 : Flector3D) (Q2 : Motor3D) :
    MotorTransformVec4 (TransformVec4 q F1) Q2 = TransformVec4 q (antiproductMF Q2 F1) := by
  unfold TransformVec4 MotorTransformVec4 antiproductMF
  simp only [Vector4D.mk.injEq]
  refine ⟨?_, ?_, ?_, ?_⟩ <;> ring

/-- Helper for C1: flector-then-motor composition on lines. -/
theorem compFM_line (l : Line3D) (F1 : Flector3D) (Q2 : Motor3D) :
    MotorTransformLine (TransformLine l F1) Q2 = TransformLine l (antiproductMF Q2 F1) := by
  unfold TransformLine MotorTransformLine antiproductMF
  simp only [Line3D.mk.injEq, Vector3D.mk.injEq, Bivector3D.mk.injEq]
  refine ⟨⟨?_, ?_, ?_⟩, ?_, ?_, ?_⟩ <;> ring

/-- Helper for C1: flector-then-motor composition on planes. -/
theorem compFM_plane (h : Plane3D) (F1 : Flector3D) (Q2 : Motor3D) :
    MotorTransformPlane (TransformPlane h F1) Q2 = TransformPlane h (antiproductMF Q2 F1) := by
  unfold TransformPlane MotorTransformPlane antiproductMF
  simp only [Plane3D.mk.injEq]
  refine ⟨?_, ?_, ?_, ?_⟩ <;> ring

/-- Helper for C1: flector-then-motor composition on unit-weight points, valid
when the flector applied first is unitized. -/
theorem compFM_point (q : Point3D) (F1 : Flector3D) (Q2 : Motor3D)
    (h : F1.p.w * F1.p.w + F1.g.x * F1.g.x + F1.g.y * F1.g.y + F1.g.z * F1.g.z = 1) :
    MotorTransformPoint (TransformPoint q F1) Q2 = TransformPoint q (antiproductMF Q2 F1) := by
  unfold TransformPoint MotorTransformPoint antiproductMF
  simp only [Point3D.mk.injEq]
  refine ⟨?_, ?_, ?_⟩
  · linear_combination (2*Q2.m.w*Q2.v.x - 2*Q2.m.x*Q2.v.w + 2*Q2.m.y*Q2.v.z - 2*Q2.m.z*Q2.v.y) * h
  · linear_combination (2*Q2.m.w*Q2.v.y - 2*Q2.m.x*Q2.v.z - 2*Q2.m.y*Q2.v.w + 2*Q2.m.z*Q2.v.x) * h
  · linear_combination (2*Q2.m.w*Q2.v.z + 2*Q2.m.x*Q2.v.y - 2*Q2.m.y*Q2.v.x - 2*Q2.m.z*Q2.v.w) * h

/-- Helper for C1: motor-then-flector composition on 3D direction vectors. -/
theorem compMF_vec3 (v : Vector3D) (Q1 : Motor3D) (F2 : Flector3D) :
    TransformVec3 (MotorTransformVec3 v Q1) F2 = TransformVec3 v (antiproductFM F2 Q1) := by
  unfold TransformVec3 MotorTransformVec3 antiproductFM
  simp only [Vector3D.mk.injEq]
  refine ⟨?_, ?_, ?_⟩ <;> ring

/-- Helper for C1: motor-then-flector composition on bivectors. -/
theorem compMF_biv3 (b : Bivector3D) (Q1 : Motor3D) (F2 : Flector3D) :
    TransformBiv3 (MotorTransformBiv3 b Q1) F2 = TransformBiv3 b (antiproductFM F2 Q1) := by
  unfold TransformBiv3 MotorTransformBiv3 antiproductFM
  simp only [Bivector3D.mk.injEq]
  refine ⟨?_, ?_, ?_⟩ <;> ring

/-- Helper for C1: motor-then-flector composition on homogeneous 4D vectors. -/
theorem compMF_vec4 (q : Vector4D) (Q1 : Motor3D) (F2 : Flector3D) :
    TransformVec4 (MotorTransformVec4 q Q1) F2 = TransformVec4 q (antiproductFM F2 Q1) := by
  unfold TransformVec4 MotorTransformVec4 antiproductFM
  simp only [Vector4D.mk.injEq]
  refine ⟨?_, ?_, ?_, ?_⟩ <;> ring

/-- Helper for C1: motor-then-flector composition on lines. -/
theorem compMF_line (l : Line3D) (Q1 : Motor3D) (F2 : Flector3D) :
    TransformLine (MotorTransformLine l Q1) F2 = TransformLine l (antiproductFM F2 Q1) := by
  unfold TransformLine MotorTransformLine antiproductFM
  simp only [Line3D.mk.injEq, Vector3D.mk.injEq, Bivector3D.mk.injEq]
  refine ⟨⟨?_, ?_, ?_⟩, ?_, ?_, ?_⟩ <;> ring

/-- Helper for C1: motor-then-flector composition on planes. -/
theorem compMF_plane (h : Plane3D) (Q1 : Motor3D) (F2 : Flector3D) :
    TransformPlane (MotorTransformPlane h Q1) F2 = TransformPlane h (antiproductFM F2 Q1) := by
  unfold TransformPlane MotorTransformPlane antiproductFM
  simp only [Plane3D.mk.injEq]
  refine ⟨?_, ?_, ?_, ?_⟩ <;> ring

/-- Helper for C1: motor-then-flector composition on unit-weight points, valid
when the motor applied first is unitized. -/
theorem compMF_point (q : Point3D) (Q1 : Motor3D) (F2 : Flector3D)
    (h : Q1.v.x * Q1.v.x + Q1.v.y * Q1.v.y + Q1.v.z * Q1.v.z + Q1.v.w * Q1.v.w = 1) :
    TransformPoint (MotorTransformPoint q Q1) F2 = TransformPoint q (antiproductFM F2 Q1) := by
  unfold TransformPoint MotorTransformPoint antiproductFM
  simp only [Point3D.mk.injEq]
  refine ⟨?_, ?_, ?_⟩
  · linear_combination (2*F2.g.w*F2.g.x - 2*F2.g.y*F2.p.z + 2*F2.g.z*F2.p.y - 2*F2.p.w*F2.p.x) * h
  · linear_combination (2*F2.g.w*F2.g.y + 2*F2.g.x*F2.p.z - 2*F2.g.z*F2.p.x - 2*F2.p.w*F2.p.y) * h
  · linear_combination (2*F2.g.w*F2.g.z - 2*F2.g.x*F2.p.y + 2*F2.g.y*F2.p.x - 2*F2.p.w*F2.p.z) * h



/-- C1 (amended): the composition law
`Transform(Transform(v, A), B) = Transform(v, B * A)` holds for all flectors and
motors A, B and all primitives of type Vector3D, Bivector3D, Vector4D, Line3D
and Plane3D; for the Point3D overload it holds provided the operator applied
first is unitized (its weight-norm-squared equals 1). -/
theorem composition_law_amended :
    (∀ (v : Vector3D) (F1 F2 : Flector3D),
      TransformVec3 (TransformVec3 v F1) F2 = MotorTransformVec3 v (antiproductFF F2 F1)) ∧
    (∀ (b : Bivector3D) (F1 F2 : Flector3D),
      TransformBiv3 (TransformBiv3 b F1) F2 = MotorTransformBiv3 b (antiproductFF F2 F1)) ∧
    (∀ (q : Vector4D) (F1 F2 : Flector3D),
      TransformVec4 (TransformVec4 q F1) F2 = MotorTransformVec4 q (antiproductFF F2 F1)) ∧
    (∀ (l : Line3D) (F1 F2 : Flector3D),
      TransformLine (TransformLine l F1) F2 = MotorTransformLine l (antiproductFF F2 F1)) ∧
    (∀ (h : Plane3D) (F1 F2 : Flector3D),
      TransformPlane (TransformPlane h F1) F2 = MotorTransformPlane h (antiproductFF F2 F1)) ∧
    (∀ (v : Vector3D) (F1 : Flector3D) (Q2 : Motor3D),
      MotorTransformVec3 (TransformVec3 v F1) Q2 = TransformVec3 v (antiproductMF Q2 F1)) ∧
    (∀ (b : Bivector3D) (F1 : Flector3D) (Q2 : Motor3D),
      MotorTransformBiv3 (TransformBiv3 b F1) Q2 = TransformBiv3 b (antiproductMF Q2 F1)) ∧
    (∀ (q : Vector4D) (F1 : Flector3D) (Q2 : Motor3D),
      MotorTransformVec4 (TransformVec4 q F1) Q2 = TransformVec4 q (antiproductMF Q2 F1)) ∧
    (∀ (l : Line3D) (F1 : Flector3D) (Q2 : Motor3D),
      MotorTransformLine (TransformLine l F1) Q2 = TransformLine l (antiproductMF Q2 F1)) ∧
    (∀ (h : Plane3D) (F1 : Flector3D) (Q2 : Motor3D),
      MotorTransformPlane (TransformPlane h F1) Q2 = TransformPlane h (antiproductMF Q2 F1)) ∧
    (∀ (v : Vector3D) (Q1 : Motor3D) (F2 : Flector3D),
      TransformVec3 (MotorTransformVec3 v Q1) F2 = TransformVec3 v (antiproductFM F2 Q1)) ∧
    (∀ (b : Bivector3D) (Q1 : Motor3D) (F2 : Flector3D),
      TransformBiv3 (MotorTransformBiv3 b Q1) F2 = TransformBiv3 b (antiproductFM F2 Q1)) ∧
    (∀ (q : Vector4D) (Q1 : Motor3D) (F2 : Flector3D),
      TransformVec4 (MotorTransformVec4 q Q1) F2 = TransformVec4 q (antiproductFM F2 Q1)) ∧
    (∀ (l : Line3D) (Q1 : Motor3D) (F2 : Flector3D),
      TransformLine (MotorTransformLine l Q1) F2 = TransformLine l (antiproductFM F2 Q1)) ∧
    (∀ (h : Plane3D) (Q1 : Motor3D) (F2 : Flector3D),
      TransformPlane (MotorTransformPlane h Q1) F2 = TransformPlane h (antiproductFM F2 Q1)) ∧
    (∀ (q : Point3D) (F1 F2 : Flector3D),
      F1.p.w * F1.p.w + F1.g.x * F1.g.x + F1.g.y * F1.g.y + F1.g.z * F1.g.z = 1 →
      TransformPoint (TransformPoint q F1) F2 = MotorTransformPoint q (antiproductFF F2 F1)) ∧
    (∀ (q : Point3D) (F1 : Flector3D) (Q2 : Motor3D),
      F1.p.w * F1.p.w + F1.g.x * F1.g.x + F1.g.y * F1.g.y + F1.g.z * F1.g.z = 1 →
      MotorTransformPoint (TransformPoint q F1) Q2 = TransformPoint q (antiproductMF Q2 F1)) ∧
    (∀ (q : Point3D) (Q1 : Motor3D) (F2 : Flector3D),
      Q1.v.x * Q1.v.x + Q1.v.y * Q1.v.y + Q1.v.z * Q1.v.z + Q1.v.w * Q1.v.w = 1 →
      TransformPoint (MotorTransformPoint q Q1) F2 = TransformPoint q (antiproductFM F2 Q1)) :=
  ⟨compFF_vec3, compFF_biv3, compFF_vec4, compFF_line, compFF_plane,
   compFM_vec3, compFM_biv3, compFM_vec4, compFM_line, compFM_plane,
   compMF_vec3, compMF_biv3, compMF_vec4, compMF_line, compMF_plane,
   compFF_point, compFM_point, compMF_point⟩

/-- Witness for C1 (amended): the Point3D composition conjunct applied at the
concrete unitized flector (0,0,0,0, 0,0,1,0), the flector (0,0,0,0, 0,0,1,-1)
and the point (1,2,3). -/
theorem composition_law_amended_witness :
    ((⟨⟨0,0,0,0⟩,⟨0,0,1,0⟩⟩ : Flector3D).p.w * (⟨⟨0,0,0,0⟩,⟨0,0,1,0⟩⟩ : Flector3D).p.w +
      (⟨⟨0,0,0,0⟩,⟨0,0,1,0⟩⟩ : Flector3D).g.x * (⟨⟨0,0,0,0⟩,⟨0,0,1,0⟩⟩ : Flector3D).g.x +
      (⟨⟨0,0,0,0⟩,⟨0,0,1,0⟩⟩ : Flector3D).g.y * (⟨⟨0,0,0,0⟩,⟨0,0,1,0⟩⟩ : Flector3D).g.y +
      (⟨⟨0,0,0,0⟩,⟨0,0,1,0⟩⟩ : Flector3D).g.z * (⟨⟨0,0,0,0⟩,⟨0,0,1,0⟩⟩ : Flector3D).g.z = 1) ∧
    TransformPoint (TransformPoint ⟨1,2,3⟩ ⟨⟨0,0,0,0⟩,⟨0,0,1,0⟩⟩) ⟨⟨0,0,0,0⟩,⟨0,0,1,-1⟩⟩ =
      MotorTransformPoint ⟨1,2,3⟩
        (antiproductFF ⟨⟨0,0,0,0⟩,⟨0,0,1,-1⟩⟩ ⟨⟨0,0,0,0⟩,⟨0,0,1,0⟩⟩) :=
  ⟨by norm_num,
   composition_law_amended.2.2.2.2.2.2.2.2.2.2.2.2.2.2.2.1
     ⟨1,2,3⟩ ⟨⟨0,0,0,0⟩,⟨0,0,1,0⟩⟩ ⟨⟨0,0,0,0⟩,⟨0,0,1,-1⟩⟩ (by norm_num)⟩

/-- Counterexample to C1 as stated: for the non-unitized flector
F1 = (0,0,0,0, 0,0,2,0), the flector F2 = (0,0,0,0, 0,0,1,-1) and the point
(0,0,0), transforming twice gives (0,0,2) while transforming once by the
composed motor F2 * F1 gives (0,0,8). -/
theorem composition_law_cex :
    TransformPoint (TransformPoint ⟨0,0,0⟩ ⟨⟨0,0,0,0⟩,⟨0,0,2,0⟩⟩) ⟨⟨0,0,0,0⟩,⟨0,0,1,-1⟩⟩ ≠
      MotorTransformPoint ⟨0,0,0⟩
        (antiproductFF ⟨⟨0,0,0,0⟩,⟨0,0,1,-1⟩⟩ ⟨⟨0,0,0,0⟩,⟨0,0,2,0⟩⟩) := by
  unfold TransformPoint MotorTransformPoint antiproductFF
  simp only [ne_eq, Point3D.mk.injEq, not_and]
  intro _ _
  norm_num



/-- External collaborator: product of two `Transform4D` matrices (both with the
implicit fourth row (0,0,0,1)). -/
def Transform4D.mul (a b : Transform4D) : Transform4D :=
  ⟨a.m00 * b.m00 + a.m01 * b.m10 + a.m02 * b.m20,
   a.m00 * b.m01 + a.m01 * b.m11 + a.m02 * b.m21,
   a.m00 * b.m02 + a.m01 * b.m12 + a.m02 * b.m22,
   a.m00 * b.m03 + a.m01 * b.m13 + a.m02 * b.m23 + a.m03,
   a.m10 * b.m00 + a.m11 * b.m10 + a.m12 * b.m20,
   a.m10 * b.m01 + a.m11 * b.m11 + a.m12 * b.m21,
   a.m10 * b.m02 + a.m11 * b.m12 + a.m12 * b.m22,
   a.m10 * b.m03 + a.m11 * b.m13 + a.m12 * b.m23 + a.m13,
   a.m20 * b.m00 + a.m21 * b.m10 + a.m22 * b.m20,
   a.m20 * b.m01 + a.m21 * b.m11 + a.m22 * b.m21,
   a.m20 * b.m02 + a.m21 * b.m12 + a.m22 * b.m22,
   a.m20 * b.m03 + a.m21 * b.m13 + a.m22 * b.m23 + a.m23⟩

/-- External collaborator: the 4x4 identity as a `Transform4D`. -/
def Transform4D.identity : Transform4D := ⟨1, 0, 0, 0, 0, 1, 0, 0, 0, 0, 1, 0⟩

/-- Modelled from the spec: `Transform4D Flector3D::GetTransformMatrix(void)`
(declared in TSFlector3D.h, implemented outside src/).  Spec section 4.4: the matrix M such that
premultiplying a vector or point by M performs the same transform as the
flector; its columns are the transforms of the three basis directions and of
the origin, with the implicit bottom row (0,0,0,1). -/
def Flector3D.GetTransformMatrix (F : Flector3D) : Transform4D :=
  ⟨(TransformVec3 ⟨1, 0, 0⟩ F).x, (TransformVec3 ⟨0, 1, 0⟩ F).x,
   (TransformVec3 ⟨0, 0, 1⟩ F).x, (TransformPoint ⟨0, 0, 0⟩ F).x,
   (TransformVec3 ⟨1, 0, 0⟩ F).y, (TransformVec3 ⟨0, 1, 0⟩ F).y,
   (TransformVec3 ⟨0, 0, 1⟩ F).y, (TransformPoint ⟨0, 0, 0⟩ F).y,
   (TransformVec3 ⟨1, 0, 0⟩ F).z, (TransformVec3 ⟨0, 1, 0⟩ F).z,
   (TransformVec3 ⟨0, 0, 1⟩ F).z, (TransformPoint ⟨0, 0, 0⟩ F).z⟩

/-- Modelled from the spec: `Transform4D Flector3D::GetInverseTransformMatrix(void)`
(declared in TSFlector3D.h, implemented outside src/).  Spec section 4.4: the inverse matrix is
produced directly from the flector fields rather than by matrix inversion,
using the closed-form inverse operator of an improper isometry, which is the
antireverse of the flector. -/
def Flector3D.GetInverseTransformMatrix (F : Flector3D) : Transform4D :=
  (Antireverse F).GetTransformMatrix

/-- C3: for every unitized flector F, the product
`GetTransformMatrix(F) * GetInverseTransformMatrix(F)` is exactly the 4x4
identity matrix (the inverse being computed from the flector fields, not by
matrix inversion). -/
theorem inverse_transform_matrix_correct (F : Flector3D)
    (h : F.p.w * F.p.w + F.g.x * F.g.x + F.g.y * F.g.y + F.g.z * F.g.z = 1) :
    Transform4D.mul F.GetTransformMatrix F.GetInverseTransformMatrix =
      Transform4D.identity := by
  simp only [Transform4D.mul, Transform4D.identity, Flector3D.GetTransformMatrix,
    Flector3D.GetInverseTransformMatrix, Antireverse, TransformVec3, TransformPoint,
    Transform4D.mk.injEq]
  refine ⟨?_, ?_, ?_, ?_, ?_, ?_, ?_, ?_, ?_, ?_, ?_, ?_⟩
  · linear_combination (1 + F.g.x * F.g.x + F.g.y * F.g.y + F.g.z * F.g.z + F.p.w * F.p.w) * h
  · ring
  · ring
  · linear_combination (2 * F.g.w * F.g.x - 2 * F.g.y * F.p.z + 2 * F.g.z * F.p.y - 2 * F.p.w * F.p.x) * h
  · ring
  · linear_combination (1 + F.g.x * F.g.x + F.g.y * F.g.y + F.g.z * F.g.z + F.p.w * F.p.w) * h
  · ring
  · linear_combination (2 * F.g.w * F.g.y + 2 * F.g.x * F.p.z - 2 * F.g.z * F.p.x - 2 * F.p.w * F.p.y) * h
  · ring
  · ring
  · linear_combination (1 + F.g.x * F.g.x + F.g.y * F.g.y + F.g.z * F.g.z + F.p.w * F.p.w) * h
  · linear_combination (2 * F.g.w * F.g.z - 2 * F.g.x * F.p.y + 2 * F.g.y * F.p.x - 2 * F.p.w * F.p.z) * h

/-- Witness for C3 at the concrete unitized flector (3,-1,2,0, 0,0,1,-4). -/
theorem inverse_transform_matrix_correct_witness :
    ((⟨⟨3,-1,2,0⟩,⟨0,0,1,-4⟩⟩ : Flector3D).p.w * (⟨⟨3,-1,2,0⟩,⟨0,0,1,-4⟩⟩ : Flector3D).p.w +
      (⟨⟨3,-1,2,0⟩,⟨0,0,1,-4⟩⟩ : Flector3D).g.x * (⟨⟨3,-1,2,0⟩,⟨0,0,1,-4⟩⟩ : Flector3D).g.x +
      (⟨⟨3,-1,2,0⟩,⟨0,0,1,-4⟩⟩ : Flector3D).g.y * (⟨⟨3,-1,2,0⟩,⟨0,0,1,-4⟩⟩ : Flector3D).g.y +
      (⟨⟨3,-1,2,0⟩,⟨0,0,1,-4⟩⟩ : Flector3D).g.z * (⟨⟨3,-1,2,0⟩,⟨0,0,1,-4⟩⟩ : Flector3D).g.z = 1) ∧
    Transform4D.mul (⟨⟨3,-1,2,0⟩,⟨0,0,1,-4⟩⟩ : Flector3D).GetTransformMatrix
        (⟨⟨3,-1,2,0⟩,⟨0,0,1,-4⟩⟩ : Flector3D).GetInverseTransformMatrix =
      Transform4D.identity :=
  ⟨by norm_num, inverse_transform_matrix_correct ⟨⟨3,-1,2,0⟩,⟨0,0,1,-4⟩⟩ (by norm_num)⟩



/-- Modelled from the spec: helper of `SetTransformMatrix` assembling the
flector from a recovered weight quadruple (p.w, g.x, g.y, g.z) and the
translation column of the matrix, solving the linear system that relates the
bulk components (p.x, p.y, p.z, g.w) to the translation of the transform. -/
def flectorFromQuad (M : Transform4D) (pw gx gy gz : ℝ) : Flector3D :=
  ⟨⟨(pw * M.m03 + gz * M.m13 - gy * M.m23) / 2,
    (-gz * M.m03 + pw * M.m13 + gx * M.m23) / 2,
    (gy * M.m03 - gx * M.m13 + pw * M.m23) / 2,
    pw⟩,
   ⟨gx, gy, gz, -(gx * M.m03 + gy * M.m13 + gz * M.m23) / 2⟩⟩

open Classical in
/-- Modelled from the spec: `Flector3D& Flector3D::SetTransformMatrix(const Transform4D& M)`
(declared in TSFlector3D.h, implemented outside src/).  Spec section 4.4: recovers the flector
components from an orthogonal, determinant -1 matrix.  The weight quadruple
(p.w, g.x, g.y, g.z) is extracted quaternion-style from the matrix diagonal,
branching on the largest of the four candidate squares for numerical
robustness, and the bulk components follow from the translation column via
`flectorFromQuad`.  A violated precondition yields a numerically well-defined
but meaningless result, with no runtime check. -/
def Flector3D.SetTransformMatrix (M : Transform4D) : Flector3D :=
  if 1 - M.m00 - M.m11 - M.m22 ≥ 1 - M.m00 + M.m11 + M.m22 ∧
      1 - M.m00 - M.m11 - M.m22 ≥ 1 + M.m00 - M.m11 + M.m22 ∧
      1 - M.m00 - M.m11 - M.m22 ≥ 1 + M.m00 + M.m11 - M.m22 then
    flectorFromQuad M (Real.sqrt (1 - M.m00 - M.m11 - M.m22) / 2)
      ((M.m12 - M.m21) / (2 * Real.sqrt (1 - M.m00 - M.m11 - M.m22)))
      ((M.m20 - M.m02) / (2 * Real.sqrt (1 - M.m00 - M.m11 - M.m22)))
      ((M.m01 - M.m10) / (2 * Real.sqrt (1 - M.m00 - M.m11 - M.m22)))
  else if 1 - M.m00 + M.m11 + M.m22 ≥ 1 + M.m00 - M.m11 + M.m22 ∧
      1 - M.m00 + M.m11 + M.m22 ≥ 1 + M.m00 + M.m11 - M.m22 then
    flectorFromQuad M ((M.m12 - M.m21) / (2 * Real.sqrt (1 - M.m00 + M.m11 + M.m22)))
      (Real.sqrt (1 - M.m00 + M.m11 + M.m22) / 2)
      (-(M.m01 + M.m10) / (2 * Real.sqrt (1 - M.m00 + M.m11 + M.m22)))
      (-(M.m02 + M.m20) / (2 * Real.sqrt (1 - M.m00 + M.m11 + M.m22)))
  else if 1 + M.m00 - M.m11 + M.m22 ≥ 1 + M.m00 + M.m11 - M.m22 then
    flectorFromQuad M ((M.m20 - M.m02) / (2 * Real.sqrt (1 + M.m00 - M.m11 + M.m22)))
      (-(M.m01 + M.m10) / (2 * Real.sqrt (1 + M.m00 - M.m11 + M.m22)))
      (Real.sqrt (1 + M.m00 - M.m11 + M.m22) / 2)
      (-(M.m12 + M.m21) / (2 * Real.sqrt (1 + M.m00 - M.m11 + M.m22)))
  else
    flectorFromQuad M ((M.m01 - M.m10) / (2 * Real.sqrt (1 + M.m00 + M.m11 - M.m22)))
      (-(M.m02 + M.m20) / (2 * Real.sqrt (1 + M.m00 + M.m11 - M.m22)))
      (-(M.m12 + M.m21) / (2 * Real.sqrt (1 + M.m00 + M.m11 - M.m22)))
      (Real.sqrt (1 + M.m00 + M.m11 - M.m22) / 2)

/-- Helper for C2: the transform matrix of an explicit flector, entry by entry. -/
theorem getTransformMatrix_entries (px py pz pw gx gy gz gw : ℝ) :
    (Flector3D.mk ⟨px, py, pz, pw⟩ ⟨gx, gy, gz, gw⟩).GetTransformMatrix =
      ⟨gy * gy + gz * gz - gx * gx - pw * pw, -2 * gx * gy + 2 * gz * pw, -2 * gx * gz - 2 * gy * pw, -2 * gw * gx + 2 * gy * pz - 2 * gz * py + 2 * pw * px, -2 * gx * gy - 2 * gz * pw, gx * gx + gz * gz - gy * gy - pw * pw, -2 * gy * gz + 2 * gx * pw, -2 * gw * gy - 2 * gx * pz + 2 * gz * px + 2 * pw * py, -2 * gx * gz + 2 * gy * pw, -2 * gy * gz - 2 * gx * pw, gx * gx + gy * gy - gz * gz - pw * pw, -2 * gw * gz + 2 * gx * py - 2 * gy * px + 2 * pw * pz⟩ := by
  simp only [Flector3D.GetTransformMatrix, TransformVec3, TransformPoint, Transform4D.mk.injEq]
  refine ⟨?_, ?_, ?_, ?_, ?_, ?_, ?_, ?_, ?_, ?_, ?_, ?_⟩ <;> ring

/-- Helper for C2: `flectorFromQuad` applied to the true weight quadruple of a
unitized, geometrically realizable flector recovers the flector exactly. -/
theorem fromQuad_id (px py pz pw gx gy gz gw : ℝ)
    (h1 : pw * pw + gx * gx + gy * gy + gz * gz = 1)
    (hc : px * gx + py * gy + pz * gz + pw * gw = 0) :
    flectorFromQuad ⟨gy * gy + gz * gz - gx * gx - pw * pw, -2 * gx * gy + 2 * gz * pw, -2 * gx * gz - 2 * gy * pw, -2 * gw * gx + 2 * gy * pz - 2 * gz * py + 2 * pw * px, -2 * gx * gy - 2 * gz * pw, gx * gx + gz * gz - gy * gy - pw * pw, -2 * gy * gz + 2 * gx * pw, -2 * gw * gy - 2 * gx * pz + 2 * gz * px + 2 * pw * py, -2 * gx * gz + 2 * gy * pw, -2 * gy * gz - 2 * gx * pw, gx * gx + gy * gy - gz * gz - pw * pw, -2 * gw * gz + 2 * gx * py - 2 * gy * px + 2 * pw * pz⟩ pw gx gy gz =
      Flector3D.mk ⟨px, py, pz, pw⟩ ⟨gx, gy, gz, gw⟩ := by
  simp only [flectorFromQuad, Flector3D.mk.injEq, Vector4D.mk.injEq, Plane3D.mk.injEq,
    and_true, true_and]
  refine ⟨⟨?_, ?_, ?_⟩, ?_⟩
  · linear_combination px * h1 - gx * hc
  · linear_combination py * h1 - gy * hc
  · linear_combination pz * h1 - gz * hc
  · linear_combination gw * h1 - pw * hc

/-- Helper for C2: `flectorFromQuad` applied to the negated weight quadruple
recovers the negated flector. -/
theorem fromQuad_neg (px py pz pw gx gy gz gw : ℝ)
    (h1 : pw * pw + gx * gx + gy * gy + gz * gz = 1)
    (hc : px * gx + py * gy + pz * gz + pw * gw = 0) :
    flectorFromQuad ⟨gy * gy + gz * gz - gx * gx - pw * pw, -2 * gx * gy + 2 * gz * pw, -2 * gx * gz - 2 * gy * pw, -2 * gw * gx + 2 * gy * pz - 2 * gz * py + 2 * pw * px, -2 * gx * gy - 2 * gz * pw, gx * gx + gz * gz - gy * gy - pw * pw, -2 * gy * gz + 2 * gx * pw, -2 * gw * gy - 2 * gx * pz + 2 * gz * px + 2 * pw * py, -2 * gx * gz + 2 * gy * pw, -2 * gy * gz - 2 * gx * pw, gx * gx + gy * gy - gz * gz - pw * pw, -2 * gw * gz + 2 * gx * py - 2 * gy * px + 2 * pw * pz⟩ (-pw) (-gx) (-gy) (-gz) =
      flectorNeg (Flector3D.mk ⟨px, py, pz, pw⟩ ⟨gx, gy, gz, gw⟩) := by
  simp only [flectorFromQuad, flectorNeg, Flector3D.mk.injEq, Vector4D.mk.injEq,
    Plane3D.mk.injEq, and_true, true_and]
  refine ⟨⟨?_, ?_, ?_⟩, ?_⟩
  · linear_combination (-px) * h1 + gx * hc
  · linear_combination (-py) * h1 + gy * hc
  · linear_combination (-pz) * h1 + gz * hc
  · linear_combination (-gw) * h1 + pw * hc

set_option maxHeartbeats 2000000 in
/-- C2 (amended): for every unitized flector F that additionally satisfies the
flector geometric constraint `p.x*g.x + p.y*g.y + p.z*g.z + p.w*g.w = 0` (true
of every flector representing an improper isometry, in particular of every
`MakeTransflection` / `MakeRotoreflection` result), calling `SetTransformMatrix`
on the matrix returned by `GetTransformMatrix` reproduces F up to a global
sign: the result equals F or -F component-wise. -/
theorem matrix_roundtrip_amended (F : Flector3D)
    (h1 : F.p.w * F.p.w + F.g.x * F.g.x + F.g.y * F.g.y + F.g.z * F.g.z = 1)
    (hc : F.p.x * F.g.x + F.p.y * F.g.y + F.p.z * F.g.z + F.p.w * F.g.w = 0) :
    Flector3D.SetTransformMatrix F.GetTransformMatrix = F ∨
      Flector3D.SetTransformMatrix F.GetTransformMatrix = flectorNeg F := by
  obtain ⟨⟨px, py, pz, pw⟩, ⟨gx, gy, gz, gw⟩⟩ := F
  dsimp only at h1 hc
  rw [getTransformMatrix_entries]
  simp only [Flector3D.SetTransformMatrix]
  split_ifs with hb1 hb2 hb3
  · obtain ⟨hbx, hby, hbz⟩ := hb1
    have h2 : gx * gx ≤ pw * pw := by nlinarith [hbx]
    have h3 : gy * gy ≤ pw * pw := by nlinarith [hby]
    have h4 : gz * gz ≤ pw * pw := by nlinarith [hbz]
    have h5 : (1:ℝ) ≤ 4 * (pw * pw) := by nlinarith
    have hp0 : pw ≠ 0 := by intro h0; rw [h0] at h5; norm_num at h5
    rw [show 1 - (gy * gy + gz * gz - gx * gx - pw * pw) - (gx * gx + gz * gz - gy * gy - pw * pw) - (gx * gx + gy * gy - gz * gz - pw * pw) = (2 * pw) ^ 2 by linear_combination -h1, Real.sqrt_sq_eq_abs]
    rcases le_or_lt 0 pw with hpos | hneg
    · rw [abs_of_nonneg (by linarith : (0:ℝ) ≤ 2 * pw)]
      left
      rw [show 2 * pw / 2 = pw by ring,
          show ((-2 * gy * gz + 2 * gx * pw) - (-2 * gy * gz - 2 * gx * pw)) / (2 * (2 * pw)) = gx by
            rw [div_eq_iff (mul_ne_zero two_ne_zero (mul_ne_zero two_ne_zero hp0))]; ring,
          show ((-2 * gx * gz + 2 * gy * pw) - (-2 * gx * gz - 2 * gy * pw)) / (2 * (2 * pw)) = gy by
            rw [div_eq_iff (mul_ne_zero two_ne_zero (mul_ne_zero two_ne_zero hp0))]; ring,
          show ((-2 * gx * gy + 2 * gz * pw) - (-2 * gx * gy - 2 * gz * pw)) / (2 * (2 * pw)) = gz by
            rw [div_eq_iff (mul_ne_zero two_ne_zero (mul_ne_zero two_ne_zero hp0))]; ring]
      exact fromQuad_id px py pz pw gx gy gz gw h1 hc
    · rw [abs_of_nonpos (by linarith : 2 * pw ≤ 0)]
      right
      rw [show -(2 * pw) / 2 = -pw by ring,
          show ((-2 * gy * gz + 2 * gx * pw) - (-2 * gy * gz - 2 * gx * pw)) / (2 * -(2 * pw)) = -gx by
            rw [div_eq_iff (mul_ne_zero two_ne_zero (neg_ne_zero.mpr (mul_ne_zero two_ne_zero hp0)))]; ring,
          show ((-2 * gx * gz + 2 * gy * pw) - (-2 * gx * gz - 2 * gy * pw)) / (2 * -(2 * pw)) = -gy by
            rw [div_eq_iff (mul_ne_zero two_ne_zero (neg_ne_zero.mpr (mul_ne_zero two_ne_zero hp0)))]; ring,
          show ((-2 * gx * gy + 2 * gz * pw) - (-2 * gx * gy - 2 * gz * pw)) / (2 * -(2 * pw)) = -gz by
            rw [div_eq_iff (mul_ne_zero two_ne_zero (neg_ne_zero.mpr (mul_ne_zero two_ne_zero hp0)))]; ring]
      exact fromQuad_neg px py pz pw gx gy gz gw h1 hc
  · obtain ⟨hby, hbz⟩ := hb2
    have h3 : gy * gy ≤ gx * gx := by nlinarith [hby]
    have h4 : gz * gz ≤ gx * gx := by nlinarith [hbz]
    have h2 : pw * pw ≤ gx * gx := by
      rcases not_and_or.mp hb1 with hn | hn2
      · nlinarith [lt_of_not_ge hn]
      · rcases not_and_or.mp hn2 with hn | hn
        · nlinarith [lt_of_not_ge hn, hby]
        · nlinarith [lt_of_not_ge hn, hbz]
    have h5 : (1:ℝ) ≤ 4 * (gx * gx) := by nlinarith
    have hp0 : gx ≠ 0 := by intro h0; rw [h0] at h5; norm_num at h5
    rw [show 1 - (gy * gy + gz * gz - gx * gx - pw * pw) + (gx * gx + gz * gz - gy * gy - pw * pw) + (gx * gx + gy * gy - gz * gz - pw * pw) = (2 * gx) ^ 2 by linear_combination -h1, Real.sqrt_sq_eq_abs]
    rcases le_or_lt 0 gx with hpos | hneg
    · rw [abs_of_nonneg (by linarith : (0:ℝ) ≤ 2 * gx)]
      left
      rw [show ((-2 * gy * gz + 2 * gx * pw) - (-2 * gy * gz - 2 * gx * pw)) / (2 * (2 * gx)) = pw by
            rw [div_eq_iff (mul_ne_zero two_ne_zero (mul_ne_zero two_ne_zero hp0))]; ring,
          show 2 * gx / 2 = gx by ring,
          show -((-2 * gx * gy + 2 * gz * pw) + (-2 * gx * gy - 2 * gz * pw)) / (2 * (2 * gx)) = gy by
            rw [div_eq_iff (mul_ne_zero two_ne_zero (mul_ne_zero two_ne_zero hp0))]; ring,
          show -((-2 * gx * gz - 2 * gy * pw) + (-2 * gx * gz + 2 * gy * pw)) / (2 * (2 * gx)) = gz by
            rw [div_eq_iff (mul_ne_zero two_ne_zero (mul_ne_zero two_ne_zero hp0))]; ring]
      exact fromQuad_id px py pz pw gx gy gz gw h1 hc
    · rw [abs_of_nonpos (by linarith : 2 * gx ≤ 0)]
      right
      rw [show ((-2 * gy * gz + 2 * gx * pw) - (-2 * gy * gz - 2 * gx * pw)) / (2 * -(2 * gx)) = -pw by
            rw [div_eq_iff (mul_ne_zero two_ne_zero (neg_ne_zero.mpr (mul_ne_zero two_ne_zero hp0)))]; ring,
          show -(2 * gx) / 2 = -gx by ring,
          show -((-2 * gx * gy + 2 * gz * pw) + (-2 * gx * gy - 2 * gz * pw)) / (2 * -(2 * gx)) = -gy by
            rw [div_eq_iff (mul_ne_zero two_ne_zero (neg_ne_zero.mpr (mul_ne_zero two_ne_zero hp0)))]; ring,
          show -((-2 * gx * gz - 2 * gy * pw) + (-2 * gx * gz + 2 * gy * pw)) / (2 * -(2 * gx)) = -gz by
            rw [div_eq_iff (mul_ne_zero two_ne_zero (neg_ne_zero.mpr (mul_ne_zero two_ne_zero hp0)))]; ring]
      exact fromQuad_neg px py pz pw gx gy gz gw h1 hc
  · have h4 : gz * gz ≤ gy * gy := by nlinarith [hb3]
    have h3 : gx * gx ≤ gy * gy := by
      rcases not_and_or.mp hb2 with hn | hn
      · nlinarith [lt_of_not_ge hn]
      · nlinarith [lt_of_not_ge hn, hb3]
    have h2 : pw * pw ≤ gy * gy := by
      rcases not_and_or.mp hb1 with hn | hn2
      · nlinarith [lt_of_not_ge hn, h3]
      · rcases not_and_or.mp hn2 with hn | hn
        · nlinarith [lt_of_not_ge hn]
        · nlinarith [lt_of_not_ge hn, h4]
    have h5 : (1:ℝ) ≤ 4 * (gy * gy) := by nlinarith
    have hp0 : gy ≠ 0 := by intro h0; rw [h0] at h5; norm_num at h5
    rw [show 1 + (gy * gy + gz * gz - gx * gx - pw * pw) - (gx * gx + gz * gz - gy * gy - pw * pw) + (gx * gx + gy * gy - gz * gz - pw * pw) = (2 * gy) ^ 2 by linear_combination -h1, Real.sqrt_sq_eq_abs]
    rcases le_or_lt 0 gy with hpos | hneg
    · rw [abs_of_nonneg (by linarith : (0:ℝ) ≤ 2 * gy)]
      left
      rw [show ((-2 * gx * gz + 2 * gy * pw) - (-2 * gx * gz - 2 * gy * pw)) / (2 * (2 * gy)) = pw by
            rw [div_eq_iff (mul_ne_zero two_ne_zero (mul_ne_zero two_ne_zero hp0))]; ring,
          show -((-2 * gx * gy + 2 * gz * pw) + (-2 * gx * gy - 2 * gz * pw)) / (2 * (2 * gy)) = gx by
            rw [div_eq_iff (mul_ne_zero two_ne_zero (mul_ne_zero two_ne_zero hp0))]; ring,
          show 2 * gy / 2 = gy by ring,
          show -((-2 * gy * gz + 2 * gx * pw) + (-2 * gy * gz - 2 * gx * pw)) / (2 * (2 * gy)) = gz by
            rw [div_eq_iff (mul_ne_zero two_ne_zero (mul_ne_zero two_ne_zero hp0))]; ring]
      exact fromQuad_id px py pz pw gx gy gz gw h1 hc
    · rw [abs_of_nonpos (by linarith : 2 * gy ≤ 0)]
      right
      rw [show ((-2 * gx * gz + 2 * gy * pw) - (-2 * gx * gz - 2 * gy * pw)) / (2 * -(2 * gy)) = -pw by
            rw [div_eq_iff (mul_ne_zero two_ne_zero (neg_ne_zero.mpr (mul_ne_zero two_ne_zero hp0)))]; ring,
          show -((-2 * gx * gy + 2 * gz * pw) + (-2 * gx * gy - 2 * gz * pw)) / (2 * -(2 * gy)) = -gx by
            rw [div_eq_iff (mul_ne_zero two_ne_zero (neg_ne_zero.mpr (mul_ne_zero two_ne_zero hp0)))]; ring,
          show -(2 * gy) / 2 = -gy by ring,
          show -((-2 * gy * gz + 2 * gx * pw) + (-2 * gy * gz - 2 * gx * pw)) / (2 * -(2 * gy)) = -gz by
            rw [div_eq_iff (mul_ne_zero two_ne_zero (neg_ne_zero.mpr (mul_ne_zero two_ne_zero hp0)))]; ring]
      exact fromQuad_neg px py pz pw gx gy gz gw h1 hc
  · have h3 : gy * gy ≤ gz * gz := by nlinarith [lt_of_not_ge hb3]
    have h2 : gx * gx ≤ gz * gz := by
      rcases not_and_or.mp hb2 with hn | hn
      · nlinarith [lt_of_not_ge hn, lt_of_not_ge hb3]
      · nlinarith [lt_of_not_ge hn]
    have h4 : pw * pw ≤ gz * gz := by
      rcases not_and_or.mp hb1 with hn | hn2
      · nlinarith [lt_of_not_ge hn, h2]
      · rcases not_and_or.mp hn2 with hn | hn
        · nlinarith [lt_of_not_ge hn, h3]
        · nlinarith [lt_of_not_ge hn]
    have h5 : (1:ℝ) ≤ 4 * (gz * gz) := by nlinarith
    have hp0 : gz ≠ 0 := by intro h0; rw [h0] at h5; norm_num at h5
    rw [show 1 + (gy * gy + gz * gz - gx * gx - pw * pw) + (gx * gx + gz * gz - gy * gy - pw * pw) - (gx * gx + gy * gy - gz * gz - pw * pw) = (2 * gz) ^ 2 by linear_combination -h1, Real.sqrt_sq_eq_abs]
    rcases le_or_lt 0 gz with hpos | hneg
    · rw [abs_of_nonneg (by linarith : (0:ℝ) ≤ 2 * gz)]
      left
      rw [show ((-2 * gx * gy + 2 * gz * pw) - (-2 * gx * gy - 2 * gz * pw)) / (2 * (2 * gz)) = pw by
            rw [div_eq_iff (mul_ne_zero two_ne_zero (mul_ne_zero two_ne_zero hp0))]; ring,
          show -((-2 * gx * gz - 2 * gy * pw) + (-2 * gx * gz + 2 * gy * pw)) / (2 * (2 * gz)) = gx by
            rw [div_eq_iff (mul_ne_zero two_ne_zero (mul_ne_zero two_ne_zero hp0))]; ring,
          show -((-2 * gy * gz + 2 * gx * pw) + (-2 * gy * gz - 2 * gx * pw)) / (2 * (2 * gz)) = gy by
            rw [div_eq_iff (mul_ne_zero two_ne_zero (mul_ne_zero two_ne_zero hp0))]; ring,
          show 2 * gz / 2 = gz by ring]
      exact fromQuad_id px py pz pw gx gy gz gw h1 hc
    · rw [abs_of_nonpos (by linarith : 2 * gz ≤ 0)]
      right
      rw [show ((-2 * gx * gy + 2 * gz * pw) - (-2 * gx * gy - 2 * gz * pw)) / (2 * -(2 * gz)) = -pw by
            rw [div_eq_iff (mul_ne_zero two_ne_zero (neg_ne_zero.mpr (mul_ne_zero two_ne_zero hp0)))]; ring,
          show -((-2 * gx * gz - 2 * gy * pw) + (-2 * gx * gz + 2 * gy * pw)) / (2 * -(2 * gz)) = -gx by
            rw [div_eq_iff (mul_ne_zero two_ne_zero (neg_ne_zero.mpr (mul_ne_zero two_ne_zero hp0)))]; ring,
          show -((-2 * gy * gz + 2 * gx * pw) + (-2 * gy * gz - 2 * gx * pw)) / (2 * -(2 * gz)) = -gy by
            rw [div_eq_iff (mul_ne_zero two_ne_zero (neg_ne_zero.mpr (mul_ne_zero two_ne_zero hp0)))]; ring,
          show -(2 * gz) / 2 = -gz by ring]
      exact fromQuad_neg px py pz pw gx gy gz gw h1 hc

/-- Witness for C2 (amended) at the concrete unitized, constraint-satisfying
flector (0,0,0,0, 0,0,1,0). -/
theorem matrix_roundtrip_amended_witness :
    ((⟨⟨0,0,0,0⟩,⟨0,0,1,0⟩⟩ : Flector3D).p.w * (⟨⟨0,0,0,0⟩,⟨0,0,1,0⟩⟩ : Flector3D).p.w +
      (⟨⟨0,0,0,0⟩,⟨0,0,1,0⟩⟩ : Flector3D).g.x * (⟨⟨0,0,0,0⟩,⟨0,0,1,0⟩⟩ : Flector3D).g.x +
      (⟨⟨0,0,0,0⟩,⟨0,0,1,0⟩⟩ : Flector3D).g.y * (⟨⟨0,0,0,0⟩,⟨0,0,1,0⟩⟩ : Flector3D).g.y +
      (⟨⟨0,0,0,0⟩,⟨0,0,1,0⟩⟩ : Flector3D).g.z * (⟨⟨0,0,0,0⟩,⟨0,0,1,0⟩⟩ : Flector3D).g.z = 1) ∧
    ((⟨⟨0,0,0,0⟩,⟨0,0,1,0⟩⟩ : Flector3D).p.x * (⟨⟨0,0,0,0⟩,⟨0,0,1,0⟩⟩ : Flector3D).g.x +
      (⟨⟨0,0,0,0⟩,⟨0,0,1,0⟩⟩ : Flector3D).p.y * (⟨⟨0,0,0,0⟩,⟨0,0,1,0⟩⟩ : Flector3D).g.y +
      (⟨⟨0,0,0,0⟩,⟨0,0,1,0⟩⟩ : Flector3D).p.z * (⟨⟨0,0,0,0⟩,⟨0,0,1,0⟩⟩ : Flector3D).g.z +
      (⟨⟨0,0,0,0⟩,⟨0,0,1,0⟩⟩ : Flector3D).p.w * (⟨⟨0,0,0,0⟩,⟨0,0,1,0⟩⟩ : Flector3D).g.w = 0) ∧
    (Flector3D.SetTransformMatrix (⟨⟨0,0,0,0⟩,⟨0,0,1,0⟩⟩ : Flector3D).GetTransformMatrix =
        (⟨⟨0,0,0,0⟩,⟨0,0,1,0⟩⟩ : Flector3D) ∨
      Flector3D.SetTransformMatrix (⟨⟨0,0,0,0⟩,⟨0,0,1,0⟩⟩ : Flector3D).GetTransformMatrix =
        flectorNeg (⟨⟨0,0,0,0⟩,⟨0,0,1,0⟩⟩ : Flector3D)) :=
  ⟨by norm_num, by norm_num,
   matrix_roundtrip_amended ⟨⟨0,0,0,0⟩,⟨0,0,1,0⟩⟩ (by norm_num) (by norm_num)⟩

/-- Counterexample to C2 as stated: the flector (0,0,1,0, 0,0,1,0) is unitized,
but the matrix round trip returns (0,0,0,0, 0,0,1,0), which is neither it nor
its negation (its geometric constraint p.z * g.z = 1 is nonzero, so it does not
represent an improper isometry and the bulk components are lost). -/
theorem matrix_roundtrip_cex :
    ((⟨⟨0,0,1,0⟩,⟨0,0,1,0⟩⟩ : Flector3D).p.w * (⟨⟨0,0,1,0⟩,⟨0,0,1,0⟩⟩ : Flector3D).p.w +
      (⟨⟨0,0,1,0⟩,⟨0,0,1,0⟩⟩ : Flector3D).g.x * (⟨⟨0,0,1,0⟩,⟨0,0,1,0⟩⟩ : Flector3D).g.x +
      (⟨⟨0,0,1,0⟩,⟨0,0,1,0⟩⟩ : Flector3D).g.y * (⟨⟨0,0,1,0⟩,⟨0,0,1,0⟩⟩ : Flector3D).g.y +
      (⟨⟨0,0,1,0⟩,⟨0,0,1,0⟩⟩ : Flector3D).g.z * (⟨⟨0,0,1,0⟩,⟨0,0,1,0⟩⟩ : Flector3D).g.z = 1) ∧
    Flector3D.SetTransformMatrix (⟨⟨0,0,1,0⟩,⟨0,0,1,0⟩⟩ : Flector3D).GetTransformMatrix ≠
      (⟨⟨0,0,1,0⟩,⟨0,0,1,0⟩⟩ : Flector3D) ∧
    Flector3D.SetTransformMatrix (⟨⟨0,0,1,0⟩,⟨0,0,1,0⟩⟩ : Flector3D).GetTransformMatrix ≠
      flectorNeg (⟨⟨0,0,1,0⟩,⟨0,0,1,0⟩⟩ : Flector3D) := by
  have hS : Flector3D.SetTransformMatrix (⟨⟨0,0,1,0⟩,⟨0,0,1,0⟩⟩ : Flector3D).GetTransformMatrix =
      ⟨⟨0,0,0,0⟩,⟨0,0,1,0⟩⟩ := by
    rw [getTransformMatrix_entries]
    simp only [Flector3D.SetTransformMatrix]
    norm_num
    have h4 : Real.sqrt 4 = 2 := by
      rw [show (4:ℝ) = 2^2 by norm_num, Real.sqrt_sq (by norm_num : (0:ℝ) ≤ 2)]
    rw [h4]
    simp only [flectorFromQuad, Flector3D.mk.injEq, Vector4D.mk.injEq, Plane3D.mk.injEq]
    norm_num
  rw [hS]
  refine ⟨by norm_num, ?_, ?_⟩
  · simp only [ne_eq, Flector3D.mk.injEq, Vector4D.mk.injEq, Plane3D.mk.injEq]
    norm_num
  · simp only [flectorNeg, ne_eq, Flector3D.mk.injEq, Vector4D.mk.injEq, Plane3D.mk.injEq]
    norm_num


/-- Model of an IEEE `float` for comparison purposes: a not-a-number flag
together with a rational payload.  IEEE `==` is false whenever either operand
is NaN (hence not reflexive), and IEEE `!=` is true in that case; `ℝ` cannot
express this, so the source equality operators are modelled over this type. -/
structure FloatVal where
  isNan : Bool
  val : ℚ

/-- Component-wise float `==`: both operands non-NaN and payloads equal. -/
def FloatVal.feq (a b : FloatVal) : Bool := !a.isNan && !b.isNan && a.val == b.val

/-- Component-wise float `!=`: either operand NaN or payloads unequal. -/
def FloatVal.fne (a b : FloatVal) : Bool := a.isNan || b.isNan || a.val != b.val

/-- The eight float components of a flector, for the comparison model of the
source `operator ==` / `operator !=` (component-wise over all 8 floats). -/
structure FlectorBits where
  px : FloatVal
  py : FloatVal
  pz : FloatVal
  pw : FloatVal
  gx : FloatVal
  gy : FloatVal
  gz : FloatVal
  gw : FloatVal

/-- Source `operator ==(const Flector3D& a, const Flector3D& b)`:
`(a.p == b.p) && (a.g == b.g)`, i.e. all 8 corresponding components equal. -/
def flectorEqBits (a b : FlectorBits) : Bool :=
  a.px.feq b.px && a.py.feq b.py && a.pz.feq b.pz && a.pw.feq b.pw &&
  a.gx.feq b.gx && a.gy.feq b.gy && a.gz.feq b.gz && a.gw.feq b.gw

/-- Source `operator !=(const Flector3D& a, const Flector3D& b)`:
`(a.p != b.p) || (a.g != b.g)`, i.e. at least one component unequal. -/
def flectorNeBits (a b : FlectorBits) : Bool :=
  a.px.fne b.px || a.py.fne b.py || a.pz.fne b.pz || a.pw.fne b.pw ||
  a.gx.fne b.gx || a.gy.fne b.gy || a.gz.fne b.gz || a.gw.fne b.gw

/-- A flector value whose first component is a NaN. -/
def nanFlectorBits : FlectorBits :=
  ⟨⟨true, 0⟩, ⟨false, 0⟩, ⟨false, 0⟩, ⟨false, 0⟩, ⟨false, 0⟩, ⟨false, 0⟩, ⟨false, 0⟩, ⟨false, 0⟩⟩

/-- Helper for C10: the component comparisons are exact complements. -/
theorem fne_eq_not_feq (a b : FloatVal) : a.fne b = !(a.feq b) := by
  unfold FloatVal.feq FloatVal.fne
  cases a.isNan <;> cases b.isNan <;> simp [bne]

/-- C10: `operator !=` returns true exactly when `operator ==` returns false
(== requiring all 8 corresponding components equal as floats, != requiring at
least one unequal), and a flector containing a NaN component compares unequal
to itself, so == is not reflexive on all inputs. -/
theorem eq_ne_exact_complement :
    (∀ a b : FlectorBits, flectorNeBits a b = !(flectorEqBits a b)) ∧
    flectorEqBits nanFlectorBits nanFlectorBits = false ∧
    flectorNeBits nanFlectorBits nanFlectorBits = true := by
  refine ⟨fun a b => ?_, rfl, rfl⟩
  unfold flectorNeBits flectorEqBits
  simp only [fne_eq_not_feq]
  cases a.px.feq b.px <;> cases a.py.feq b.py <;> cases a.pz.feq b.pz <;>
    cases a.pw.feq b.pw <;> cases a.gx.feq b.gx <;> cases a.gy.feq b.gy <;>
    cases a.gz.feq b.gz <;> cases a.gw.feq b.gw <;> rfl


end Terathon
